import Mathlib

/-!
# Verification of the HACF Adaptive Sequencing, Memory and Evaluation Engine

A shallow embedding, in Lean 4, of the algorithmic core of `advanced_hacf.py`
(classes `AdaptiveLayerSequencer`, `CrossLayerMemory`, `ProprietaryEvaluation`),
together with theorems settling the frozen claims C1..C10 about it.

Modelling conventions:
* Python floats are modelled as `ℚ` (all constants in the source are decimal
  literals, so exact rational arithmetic reproduces the intended values).
* JSON metadata is modelled by `Metadata` with `Option` fields; a project's
  raw `metadata` string is `Option (Except Unit Metadata)`: `none` stands for
  an absent/empty string (Python falsy, parsed as `{}` is never attempted),
  `some (.error ())` for a string `json.loads` rejects, `some (.ok m)` for a
  successfully parsed object.  A `try/except` around parsing becomes a match
  on this value.
* `random.random()` is modelled by a stream `g : ℕ → ℚ` of draws consumed in
  call order, and `random.choice(l)` by `l.getD (h i % l.length) 0` for a
  stream `h : ℕ → ℕ`; the claims under study depend only on the support of
  the distributions, never on their law.
* The class-level dictionary `ProprietaryEvaluation.LAYER_CRITERIA` has its
  per-layer `criteria` lists mutated in place by `evaluate_layer_output`
  (`criteria.extend(...)` on the aliased list); the mutable part is modelled
  as an explicit state `CritState` threaded through `evaluate_layer_output`.
  The `dimension_weights` entries are never mutated (the industry branch
  rebinds a fresh dict), so they stay a plain constant table.
-/

namespace HACF

/-! ## ComplexityScorer: `AdaptiveLayerSequencer.calculate_project_complexity` -/

/-- The three complexity levels used as Python strings 'low'/'medium'/'high'. -/
inductive Level where
  | low
  | medium
  | high
deriving DecidableEq, Repr, Fintype

/-- `complexity_scores = {'low': 1, 'medium': 2, 'high': 3}`. -/
def Level.score : Level → ℚ
  | .low => 1
  | .medium => 2
  | .high => 3

/-- Rank used to order levels low < medium < high (for the monotonicity claim). -/
def Level.rank : Level → ℕ
  | .low => 0
  | .medium => 1
  | .high => 2

/-- Parsed JSON project metadata.  Only the keys read by the source are kept;
`features`/`integrations` are modelled by their lengths, the only thing the
source reads (`len(metadata.get('features', []))` etc.). -/
structure Metadata where
  domain : Option String := none
  industry : Option String := none
  estimated_code_size : Option ℤ := none
  features : Option ℕ := none
  integrations : Option ℕ := none
  project_type : Option String := none
deriving Repr

/-- A project row; only its `metadata` JSON string is read by the engine. -/
structure Project where
  metadata : Option (Except Unit Metadata)

/-- `COMPLEXITY_FACTORS['domain_complexity']['low']`. -/
def domainLowList : List String := ["landing_page", "portfolio", "simple_blog"]

/-- `COMPLEXITY_FACTORS['domain_complexity']['medium']`. -/
def domainMediumList : List String :=
  ["e_commerce", "content_management", "data_visualization"]

/-- `COMPLEXITY_FACTORS['domain_complexity']['high']`. -/
def domainHighList : List String :=
  ["financial_system", "healthcare_app", "ai_system", "security_critical"]

/-- Code-size bucketing: `< 1000` low, `< 5000` medium, else high. -/
def codeSizeLevel (n : ℤ) : Level :=
  if n < 1000 then .low else if n < 5000 then .medium else .high

/-- Domain bucketing: iterate the domain table in insertion order
(low, medium, high) and stop at the first list containing the domain;
default medium. -/
def domainLevel (d : String) : Level :=
  if d ∈ domainLowList then .low
  else if d ∈ domainMediumList then .medium
  else if d ∈ domainHighList then .high
  else .medium

/-- Feature-count bucketing: `< 3` low, `< 8` medium, else high. -/
def featureLevel (n : ℕ) : Level :=
  if n < 3 then .low else if n < 8 then .medium else .high

/-- Integration-count bucketing: `< 1` low, `< 3` medium, else high. -/
def integrationLevel (n : ℕ) : Level :=
  if n < 1 then .low else if n < 3 then .medium else .high

/-- The weighted factor score with weights
`{code_size: 0.25, domain_complexity: 0.35, feature_count: 0.2, integration_count: 0.2}`. -/
def weightedScore (cs dm fc ic : Level) : ℚ :=
  cs.score * (25/100) + dm.score * (35/100) + fc.score * (20/100) + ic.score * (20/100)

/-- `overall = 'medium'`, overridden to 'low' if `score < 1.67`, 'high' if `score > 2.33`. -/
def classifyOverall (q : ℚ) : String :=
  if q < 167/100 then "low" else if q > 233/100 then "high" else "medium"

/-- Overall classification from the four factor levels. -/
def overallFromFactors (cs dm fc ic : Level) : String :=
  classifyOverall (weightedScore cs dm fc ic)

/-- Rank of the overall classification string (low < medium < high). -/
def overallRank (s : String) : ℕ :=
  if s = "low" then 0 else if s = "medium" then 1 else 2

/-- The four computed factors. -/
structure Factors where
  code_size : Level
  domain_complexity : Level
  feature_count : Level
  integration_count : Level
deriving DecidableEq, Repr

/-- The dict returned by `calculate_project_complexity`: `factors = none`
models the empty dict `{}` of the default profile (`score`/`industry`
keys are absent there too). -/
structure ComplexityProfile where
  overall : String
  factors : Option Factors
  score : Option ℚ := none
  industry : Option String := none
deriving DecidableEq, Repr

/-- `{'overall': 'medium', 'factors': {}}`, the profile returned when the
project is falsy or any exception is raised while scoring. -/
def defaultProfile : ComplexityProfile :=
  { overall := "medium", factors := none }

/-- The body of `calculate_project_complexity` on successfully parsed
metadata (defaults: domain 'general', industry 'technology',
code size 4500, empty feature/integration lists). -/
def complexityOfMeta (m : Metadata) : ComplexityProfile :=
  let domain := m.domain.getD "general"
  let industry := m.industry.getD "technology"
  let code_size := m.estimated_code_size.getD 4500
  let feature_count := m.features.getD 0
  let integration_count := m.integrations.getD 0
  let cs := codeSizeLevel code_size
  let dm := domainLevel domain
  let fc := featureLevel feature_count
  let ic := integrationLevel integration_count
  let s := weightedScore cs dm fc ic
  { overall := classifyOverall s
    factors := some ⟨cs, dm, fc, ic⟩
    score := some s
    industry := some industry }

/-- `AdaptiveLayerSequencer.calculate_project_complexity`.  A falsy project
returns the default profile; a metadata string `json.loads` rejects raises
inside the `try`, caught by the `except` returning the default profile;
an absent metadata string means `metadata = {}`. -/
def calculate_project_complexity : Option Project → ComplexityProfile
  | none => defaultProfile
  | some p =>
    match p.metadata with
    | some (.error _) => defaultProfile
    | some (.ok m) => complexityOfMeta m
    | none => complexityOfMeta {}

/-- The classifier only ever produces the three level strings. -/
theorem classifyOverall_mem (q : ℚ) :
    classifyOverall q ∈ ["low", "medium", "high"] := by
  unfold classifyOverall
  split
  · simp
  · split <;> simp

/-- The level score is its rank plus one. -/
theorem Level.score_eq_rank (a : Level) : a.score = (a.rank : ℚ) + 1 := by
  cases a <;> simp [Level.score, Level.rank] <;> norm_num

/-- Raising a level never lowers its score. -/
theorem Level.score_mono {a a' : Level} (h : a.rank ≤ a'.rank) :
    a.score ≤ a'.score := by
  rw [Level.score_eq_rank, Level.score_eq_rank]
  exact add_le_add_right (by exact_mod_cast h) 1

/-- Rank of the classified string, as a function of the score. -/
theorem overallRank_classify (q : ℚ) :
    overallRank (classifyOverall q) =
      if q < 167/100 then 0 else if q > 233/100 then 2 else 1 := by
  unfold classifyOverall overallRank
  split_ifs <;> simp_all

/-- The classification rank is monotone in the weighted score. -/
theorem classifyOverall_rank_mono {q q' : ℚ} (h : q ≤ q') :
    overallRank (classifyOverall q) ≤ overallRank (classifyOverall q') := by
  rw [overallRank_classify, overallRank_classify]
  split_ifs <;> first | omega | linarith

/-- C8: `calculate_project_complexity` always classifies the project as one of
low/medium/high, and the classification computed from the four factor levels
(code size, domain, features, integrations) is monotone in each factor
separately, the other three held fixed. -/
theorem complexity_overall_mem_and_monotone :
    (∀ q : Option Project,
        (calculate_project_complexity q).overall ∈ ["low", "medium", "high"]) ∧
    (∀ a a' b c d : Level, a.rank ≤ a'.rank →
        overallRank (overallFromFactors a b c d) ≤
          overallRank (overallFromFactors a' b c d)) ∧
    (∀ a b b' c d : Level, b.rank ≤ b'.rank →
        overallRank (overallFromFactors a b c d) ≤
          overallRank (overallFromFactors a b' c d)) ∧
    (∀ a b c c' d : Level, c.rank ≤ c'.rank →
        overallRank (overallFromFactors a b c d) ≤
          overallRank (overallFromFactors a b c' d)) ∧
    (∀ a b c d d' : Level, d.rank ≤ d'.rank →
        overallRank (overallFromFactors a b c d) ≤
          overallRank (overallFromFactors a b c d')) := by
  refine ⟨?_,
    fun a a' b c d h => classifyOverall_rank_mono (by
      unfold weightedScore; have := Level.score_mono h; linarith),
    fun a b b' c d h => classifyOverall_rank_mono (by
      unfold weightedScore; have := Level.score_mono h; linarith),
    fun a b c c' d h => classifyOverall_rank_mono (by
      unfold weightedScore; have := Level.score_mono h; linarith),
    fun a b c d d' h => classifyOverall_rank_mono (by
      unfold weightedScore; have := Level.score_mono h; linarith)⟩
  intro q
  match q with
  | none => simp [calculate_project_complexity, defaultProfile]
  | some p =>
    match h : p.metadata with
    | some (.error _) => simp [calculate_project_complexity, h, defaultProfile]
    | some (.ok m) =>
      simpa [calculate_project_complexity, h, complexityOfMeta] using
        classifyOverall_mem (weightedScore _ _ _ _)
    | none =>
      simpa [calculate_project_complexity, h, complexityOfMeta] using
        classifyOverall_mem (weightedScore _ _ _ _)

/-- Witness for C8: the membership at a concrete project and the monotonicity
at a concrete raise of the domain factor from low to high. -/
theorem complexity_overall_mem_and_monotone_witness :
    (calculate_project_complexity none).overall ∈ ["low", "medium", "high"] ∧
    overallRank (overallFromFactors .low .low .low .low) ≤
      overallRank (overallFromFactors .low .high .low .low) :=
  ⟨complexity_overall_mem_and_monotone.1 none,
   complexity_overall_mem_and_monotone.2.2.1 .low .low .high .low .low (by decide)⟩

/-- C10: on any project whose metadata string fails to parse, scoring is
recovered locally and yields exactly the default profile
`{'overall': 'medium', 'factors': {}}`; the embedding is a total function,
mirroring that no exception escapes `calculate_project_complexity`. -/
theorem complexity_parse_error_default (p : Project) (e : Unit)
    (h : p.metadata = some (.error e)) :
    calculate_project_complexity (some p) = defaultProfile := by
  simp [calculate_project_complexity, h]

/-- Witness for C10 at a concrete malformed-metadata project. -/
theorem complexity_parse_error_default_witness :
    calculate_project_complexity (some ⟨some (.error ())⟩) = defaultProfile :=
  complexity_parse_error_default ⟨some (.error ())⟩ () rfl

/-! ## SequencePlanner: `AdaptiveLayerSequencer.determine_layer_sequence` -/

/-- `LAYER_TRANSITION_NETWORKS['standard']` as a total function; layers
outside the dict map to `[]` (the `.get(layer, [])` default). -/
def standardNet (l : ℤ) : List ℤ :=
  if l = 0 then [1] else if l = 1 then [2] else if l = 2 then [3]
  else if l = 3 then [4] else if l = 4 then [5] else if l = 5 then [6]
  else if l = 6 then [7] else if l = 7 then [8] else if l = 8 then [9]
  else if l = 9 then [10] else if l = 10 then [11] else []

/-- `LAYER_TRANSITION_NETWORKS['agile']`. -/
def agileNet (l : ℤ) : List ℤ :=
  if l = 0 then [1] else if l = 1 then [2, 3] else if l = 2 then [3, 4]
  else if l = 3 then [4, 5] else if l = 4 then [3, 5, 6]
  else if l = 5 then [4, 6, 7] else if l = 6 then [5, 7, 8]
  else if l = 7 then [5, 6, 8, 9] else if l = 8 then [7, 9, 10]
  else if l = 9 then [10, 7, 8] else if l = 10 then [11, 7, 8, 9]
  else if l = 11 then [7, 10] else []

/-- `LAYER_TRANSITION_NETWORKS['research']`. -/
def researchNet (l : ℤ) : List ℤ :=
  if l = 0 then [1, 2] else if l = 1 then [0, 2, 3, 4]
  else if l = 2 then [1, 3, 4, 5] else if l = 3 then [1, 2, 4, 5, 6]
  else if l = 4 then [2, 3, 5, 6, 7] else if l = 5 then [3, 4, 6, 7, 8]
  else if l = 6 then [4, 5, 7, 8, 9] else if l = 7 then [5, 6, 8, 9, 10]
  else if l = 8 then [6, 7, 9, 10, 11] else if l = 9 then [7, 8, 10, 11]
  else if l = 10 then [7, 8, 9, 11] else if l = 11 then [7, 8, 9, 10] else []

/-- `LAYER_TRANSITION_NETWORKS['security_focused']`. -/
def securityNet (l : ℤ) : List ℤ :=
  if l = 0 then [1] else if l = 1 then [2] else if l = 2 then [3]
  else if l = 3 then [4] else if l = 4 then [5, 6] else if l = 5 then [6, 3, 4]
  else if l = 6 then [7, 5, 4] else if l = 7 then [8, 6, 5]
  else if l = 8 then [9, 7, 6] else if l = 9 then [10, 7, 8]
  else if l = 10 then [11, 7] else if l = 11 then [7, 10] else []

/-- `LAYER_TRANSITION_NETWORKS['iterative_development']`. -/
def iterativeNet (l : ℤ) : List ℤ :=
  if l = 0 then [1] else if l = 1 then [2] else if l = 2 then [3]
  else if l = 3 then [4] else if l = 4 then [5] else if l = 5 then [5, 6]
  else if l = 6 then [5, 7] else if l = 7 then [5, 6, 8]
  else if l = 8 then [7, 9] else if l = 9 then [5, 7, 8, 10]
  else if l = 10 then [7, 11] else if l = 11 then [5, 7, 10] else []

/-- `LAYER_TRANSITION_NETWORKS.get(name, LAYER_TRANSITION_NETWORKS['standard'])`. -/
def transitionNetwork (name : String) : ℤ → List ℤ :=
  if name = "standard" then standardNet
  else if name = "agile" then agileNet
  else if name = "research" then researchNet
  else if name = "security_focused" then securityNet
  else if name = "iterative_development" then iterativeNet
  else standardNet

/-- `AdaptiveLayerSequencer.INDUSTRY_ADJUSTMENTS[..]['preferred_network']`
(only the field the sequencer reads; unregistered industries yield `none`). -/
def preferredNetwork (industry : String) : Option String :=
  if industry = "healthcare" then some "security_focused"
  else if industry = "finance" then some "security_focused"
  else if industry = "education" then some "agile"
  else if industry = "startup" then some "iterative_development"
  else if industry = "government" then some "standard"
  else if industry = "research" then some "research"
  else none

/-- Network-name selection: industry preference first, then the
project-type overrides, default 'standard'. -/
def networkTypeOf (industry project_type : String) : String :=
  let base := (preferredNetwork industry).getD "standard"
  if project_type = "research_poc" then "research"
  else if project_type = "security_critical" then "security_focused"
  else if project_type = "mvp" then "iterative_development"
  else if project_type = "prototype" then "iterative_development"
  else if project_type = "agile_project" then "agile"
  else base

/-- The metadata object `determine_layer_sequence` works with for a parsed
project (`{}` when the metadata string is absent). -/
def metaOf (p : Project) : Metadata :=
  match p.metadata with
  | some (.ok m) => m
  | _ => {}

/-- The network name the sequencer chooses for a well-parsed project. -/
def networkNameOf (p : Project) : String :=
  let complexity := complexityOfMeta (metaOf p)
  networkTypeOf (complexity.industry.getD "technology")
    ((metaOf p).project_type.getD "web_application")

/-- The active transition network of a project (the `standard` network when
the sequencer's exception handler would fire before network selection). -/
def activeNet : Option Project → ℤ → List ℤ
  | none => standardNet
  | some p => transitionNetwork (networkNameOf p)

/-- `current_layer = 1`: the hard-coded current layer used by the feedback
branch of `determine_layer_sequence` ("For now, we'll just use a default
value" in the source). -/
def currentSelectLayer : ℤ := 1

/-- Feedback passed to the sequencer; only `satisfaction` is read,
`feedback.get('satisfaction', 0.7)`. -/
structure Feedback where
  satisfaction : Option ℚ := none

/-- The feedback branch of `determine_layer_sequence` (lines 486-531):
high satisfaction follows the standard edge, low satisfaction prefers an
alternative (p=0.7) or a redo of the current layer (p=0.3), and moderate
satisfaction takes an alternative with p=0.3, else the standard edge.
`g` enumerates the `random.random()` draws in call order and `h` the
`random.choice` selections; the `alternatives` list is computed once here
since both Python occurrences evaluate the same expression. -/
def selectNextLayer (net : ℤ → List ℤ) (sat : ℚ) (g : ℕ → ℚ) (h : ℕ → ℕ) :
    List ℤ :=
  let current := currentSelectLayer
  match net current with
  | [] => [5]
  | std :: rest =>
    let possible := std :: rest
    let alternatives := possible.filter (fun l => l ≠ std)
    let moderate : ℕ → ℕ → List ℤ := fun fi ni =>
      if possible.length > 1 ∧ alternatives ≠ [] ∧ g fi < 3/10 then
        [alternatives.getD (h ni % alternatives.length) 0]
      else [std]
    if sat > 4/5 then [std]
    else if sat < 2/5 then
      if possible.length > 1 ∧ alternatives ≠ [] then
        if g 0 < 7/10 then [alternatives.getD (h 0 % alternatives.length) 0]
        else if g 1 < 3/10 then [current]
        else moderate 2 1
      else
        if g 0 < 3/10 then [current]
        else moderate 1 0
    else moderate 0 0

/-- One pass of the planning `while` loop (lines 539-560), with an explicit
fuel argument standing in for the `while` construct: the guard
`len(path) < 10` makes the loop body run at most 9 times from the initial
`path = [1]`, so any fuel of at least 10 computes the loop's result.
A `random.random()` draw is consumed exactly when the first three repeat
conjuncts hold, matching Python's short-circuit `and`. -/
def planLoop (net : ℤ → List ℤ) (highAgile : Bool) (g : ℕ → ℚ) :
    ℕ → ℤ → List ℤ → ℕ → List ℤ
  | 0, _, path, _ => path
  | fuel + 1, current, path, fi =>
    if current ≠ 5 ∧ path.length < 10 then
      match net current with
      | [] =>
        if current < 5 then
          let c := current + 1
          let path' := path ++ [c]
          if highAgile ∧ (c = 3 ∨ c = 4) then
            if g fi < 4/10 then planLoop net highAgile g fuel c (path' ++ [c]) (fi + 1)
            else planLoop net highAgile g fuel c path' (fi + 1)
          else planLoop net highAgile g fuel c path' fi
        else path
      | nxt :: _ =>
        let c := nxt
        let path' := path ++ [c]
        if highAgile ∧ (c = 3 ∨ c = 4) then
          if g fi < 4/10 then planLoop net highAgile g fuel c (path' ++ [c]) (fi + 1)
          else planLoop net highAgile g fuel c path' (fi + 1)
        else planLoop net highAgile g fuel c path' fi
    else path

/-- The new-session planning branch of `determine_layer_sequence`
(lines 533-562): start at layer 1 and walk first-listed edges. -/
def planPath (net : ℤ → List ℤ) (highAgile : Bool) (g : ℕ → ℚ) : List ℤ :=
  planLoop net highAgile g 12 1 [1] 0

/-- `AdaptiveLayerSequencer.determine_layer_sequence`.  A falsy project makes
`project.metadata` raise, and a malformed metadata string makes `json.loads`
raise; both land in the outer `except` returning `[1, 2, 3, 4, 5]`.  The
feedback branch runs when both `feedback` and `session_id` are truthy,
otherwise the full path plan is generated. -/
def determine_layer_sequence (project : Option Project)
    (sessionId : Option String) (feedback : Option Feedback)
    (g : ℕ → ℚ) (h : ℕ → ℕ) : List ℤ :=
  match project with
  | none => [1, 2, 3, 4, 5]
  | some p =>
    match p.metadata with
    | some (.error _) => [1, 2, 3, 4, 5]
    | _ =>
      let complexity := complexityOfMeta (metaOf p)
      let networkType := networkNameOf p
      let net := transitionNetwork networkType
      match feedback, sessionId with
      | some f, some _ => selectNextLayer net (f.satisfaction.getD (7/10)) g h
      | _, _ =>
        planPath net
          (decide (complexity.overall = "high") &&
            (decide (networkType = "agile") ||
              decide (networkType = "iterative_development"))) g

/-- A single step the planner may take: a listed transition of the active
network, the linear `+1` fallback, or a repeat of the stage just visited. -/
def ValidStep (net : ℤ → List ℤ) (a b : ℤ) : Prop :=
  b ∈ net a ∨ b = a + 1 ∨ b = a

/-- Appending one valid step to a chained path keeps it chained, moves its
last element, and leaves its head unchanged. -/
theorem step_extend {net : ℤ → List ℤ} {path : List ℤ} {a b : ℤ}
    (hne : path ≠ []) (hlast : path.getLast? = some a)
    (hch : List.Chain' (ValidStep net) path) (hstep : ValidStep net a b) :
    path ++ [b] ≠ [] ∧ (path ++ [b]).getLast? = some b ∧
      List.Chain' (ValidStep net) (path ++ [b]) ∧
      (path ++ [b]).head? = path.head? := by
  refine ⟨by simp, List.getLast?_concat path, ?_, ?_⟩
  · rw [List.chain'_append]
    refine ⟨hch, List.chain'_singleton b, ?_⟩
    intro x hx y hy
    rw [Option.mem_def, hlast] at hx
    rw [Option.mem_def] at hy
    simp at hy
    cases hx
    exact hy ▸ hstep
  · cases path with
    | nil => exact absurd rfl hne
    | cons hd tl => simp

/-- Invariant of the planning loop: starting from a nonempty chained path of
length at most 11 whose last element is the current layer, the loop result is
a chained path with the same head and length at most 11.  The 11 (not 10) is
what the repeat step can produce: the guard admits a path of 9 elements,
the body appends the next stage and then possibly its repeat. -/
theorem planLoop_invariant (net : ℤ → List ℤ) (hA : Bool) (g : ℕ → ℚ) :
    ∀ (fuel : ℕ) (current : ℤ) (path : List ℤ) (fi : ℕ),
      path ≠ [] → path.getLast? = some current →
      List.Chain' (ValidStep net) path → path.length ≤ 11 →
      (planLoop net hA g fuel current path fi).length ≤ 11 ∧
        (planLoop net hA g fuel current path fi).head? = path.head? ∧
        List.Chain' (ValidStep net) (planLoop net hA g fuel current path fi) := by
  intro fuel
  induction fuel with
  | zero =>
    intro current path fi _ _ hch hlen
    exact ⟨by simpa [planLoop] using hlen, by simp [planLoop],
      by simpa [planLoop] using hch⟩
  | succ n ih =>
    intro current path fi hne hlast hch hlen
    rw [planLoop]
    split
    · rename_i hguard
      have hlt : path.length < 10 := hguard.2
      rcases hnc : net current with _ | ⟨nxt, tl⟩
      all_goals simp only
      · -- empty adjacency: +1 fallback or stop
        split
        · rename_i hc5
          have hstep : ValidStep net current (current + 1) := Or.inr (Or.inl rfl)
          obtain ⟨hne', hlast', hch', hhd'⟩ := step_extend hne hlast hch hstep
          split
          · split
            · have hstep2 : ValidStep net (current + 1) (current + 1) :=
                Or.inr (Or.inr rfl)
              obtain ⟨hne2, hlast2, hch2, hhd2⟩ := step_extend hne' hlast' hch' hstep2
              have := ih (current + 1) ((path ++ [current + 1]) ++ [current + 1])
                (fi + 1) hne2 hlast2 hch2 (by simp; omega)
              exact ⟨this.1, by rw [this.2.1, hhd2, hhd'], this.2.2⟩
            · have := ih (current + 1) (path ++ [current + 1]) (fi + 1)
                hne' hlast' hch' (by simp; omega)
              exact ⟨this.1, by rw [this.2.1, hhd'], this.2.2⟩
          · have := ih (current + 1) (path ++ [current + 1]) fi
              hne' hlast' hch' (by simp; omega)
            exact ⟨this.1, by rw [this.2.1, hhd'], this.2.2⟩
        · exact ⟨hlen, rfl, hch⟩
      · -- first listed transition
        have hstep : ValidStep net current nxt := Or.inl (by rw [hnc]; simp)
        obtain ⟨hne', hlast', hch', hhd'⟩ := step_extend hne hlast hch hstep
        split
        · split
          · have hstep2 : ValidStep net nxt nxt := Or.inr (Or.inr rfl)
            obtain ⟨hne2, hlast2, hch2, hhd2⟩ := step_extend hne' hlast' hch' hstep2
            have := ih nxt ((path ++ [nxt]) ++ [nxt]) (fi + 1) hne2 hlast2 hch2
              (by simp; omega)
            exact ⟨this.1, by rw [this.2.1, hhd2, hhd'], this.2.2⟩
          · have := ih nxt (path ++ [nxt]) (fi + 1) hne' hlast' hch'
              (by simp; omega)
            exact ⟨this.1, by rw [this.2.1, hhd'], this.2.2⟩
        · have := ih nxt (path ++ [nxt]) fi hne' hlast' hch' (by simp; omega)
          exact ⟨this.1, by rw [this.2.1, hhd'], this.2.2⟩
    · exact ⟨hlen, rfl, hch⟩

/-- The exception-path default `[1, 2, 3, 4, 5]` is a chain of `+1` steps
for any network. -/
theorem chain_default_path (net : ℤ → List ℤ) :
    List.Chain' (ValidStep net) [1, 2, 3, 4, 5] := by
  refine List.Chain'.cons ?_ (List.Chain'.cons ?_ (List.Chain'.cons ?_
    (List.Chain'.cons ?_ (List.chain'_singleton 5)))) <;>
    exact Or.inr (Or.inl (by norm_num))

/-- C1 (amended): for every project and every randomness source the planned
initial sequence (no feedback) has length at most 11 — not 10: appending the
high-complexity repeat step after the loop's 10th element can yield 11 —
starts at stage 1, and each consecutive step is a listed transition of the
active network, the linear `+1` fallback, or a repeat of the stage just
appended. -/
theorem plan_initial_sequence_props (project : Option Project)
    (sessionId : Option String) (g : ℕ → ℚ) (h : ℕ → ℕ) :
    (determine_layer_sequence project sessionId none g h).length ≤ 11 ∧
      (determine_layer_sequence project sessionId none g h).head? = some 1 ∧
      List.Chain' (ValidStep (activeNet project))
        (determine_layer_sequence project sessionId none g h) := by
  rcases project with _ | p
  · exact ⟨by simp [determine_layer_sequence],
      by simp [determine_layer_sequence],
      by simpa [determine_layer_sequence] using chain_default_path standardNet⟩
  · have plan_case : ∀ netName : String,
        (planPath (transitionNetwork netName)
            ((decide ((complexityOfMeta (metaOf p)).overall = "high") &&
              (decide (netName = "agile") ||
                decide (netName = "iterative_development")))) g).length ≤ 11 ∧
        (planPath (transitionNetwork netName)
            ((decide ((complexityOfMeta (metaOf p)).overall = "high") &&
              (decide (netName = "agile") ||
                decide (netName = "iterative_development")))) g).head? = some 1 ∧
        List.Chain' (ValidStep (transitionNetwork netName))
          (planPath (transitionNetwork netName)
            ((decide ((complexityOfMeta (metaOf p)).overall = "high") &&
              (decide (netName = "agile") ||
                decide (netName = "iterative_development")))) g) := by
      intro netName
      have := planLoop_invariant (transitionNetwork netName)
        ((decide ((complexityOfMeta (metaOf p)).overall = "high") &&
          (decide (netName = "agile") ||
            decide (netName = "iterative_development")))) g 12 1 [1] 0
        (by simp) (by simp) (List.chain'_singleton 1) (by simp)
      exact ⟨this.1, by rw [planPath, this.2.1]; simp, this.2.2⟩
    rcases hm : p.metadata with _ | me
    · simpa [determine_layer_sequence, hm, activeNet] using
        plan_case (networkNameOf p)
    · rcases me with e | m
      · exact ⟨by simp [determine_layer_sequence, hm],
          by simp [determine_layer_sequence, hm],
          by simpa [determine_layer_sequence, hm, activeNet] using
            chain_default_path (transitionNetwork (networkNameOf p))⟩
      · simpa [determine_layer_sequence, hm, activeNet] using
        plan_case (networkNameOf p)

/-- A concrete project whose complexity is high on every factor and whose
`project_type` forces the agile network. -/
def agileHighMeta : Metadata :=
  { domain := some "ai_system", estimated_code_size := some 25000,
    features := some 16, integrations := some 7,
    project_type := some "agile_project" }

/-- The project wrapping `agileHighMeta`. -/
def agileHighProject : Project := ⟨some (.ok agileHighMeta)⟩

/-- A draw stream whose eighth `random.random()` value triggers the repeat
step (all earlier draws refuse it). -/
def cexDraws : ℕ → ℚ := fun n => if n = 7 then 0 else 1/2

/-- The chosen network of the concrete high-complexity project is agile. -/
theorem agileHighProject_network : networkNameOf agileHighProject = "agile" := by
  simp [networkNameOf, networkTypeOf, preferredNetwork, metaOf,
    agileHighProject, agileHighMeta, complexityOfMeta]

/-- The concrete project's overall complexity is high. -/
theorem agileHighProject_overall :
    (complexityOfMeta (metaOf agileHighProject)).overall = "high" := by
  norm_num [complexityOfMeta, metaOf, agileHighProject, agileHighMeta,
    weightedScore, classifyOverall, Level.score,
    show domainLevel "ai_system" = Level.high from rfl,
    show codeSizeLevel 25000 = Level.high from rfl,
    show featureLevel 16 = Level.high from rfl,
    show integrationLevel 7 = Level.high from rfl]

/-- The planning loop on the agile network with the repeat flag set walks
1,2 and then cycles 3,4 (never reaching 5), and the repeat draw after the
10th element appends an 11th. -/
theorem planPath_cex :
    planPath agileNet true cexDraws = [1, 2, 3, 4, 3, 4, 3, 4, 3, 4, 4] := by
  rw [planPath]
  iterate 10 (rw [planLoop]; norm_num [agileNet, cexDraws])

/-- C1 counterexample: the claim's bound of 10 fails — planning the concrete
high-complexity agile project with these draws returns a sequence of
length 11, because the repeat step is appended after the 10-step loop bound
is reached. -/
theorem plan_initial_sequence_length_cex :
    (determine_layer_sequence (some agileHighProject) none none cexDraws
        (fun _ => 0)).length = 11 := by
  have hmeta : agileHighProject.metadata = some (.ok agileHighMeta) := rfl
  simp only [determine_layer_sequence, hmeta]
  rw [agileHighProject_network, agileHighProject_overall]
  norm_num
  rw [show transitionNetwork "agile" = agileNet from rfl, planPath_cex]
  rfl

/-- Picking an index modulo the length of a nonempty list lands in the list
(the shape of the `random.choice` model). -/
theorem getD_mod_mem (l : List ℤ) (n : ℕ) (hl : l ≠ []) :
    l.getD (n % l.length) 0 ∈ l := by
  have hlen : 0 < l.length := List.length_pos.mpr hl
  have hmod : n % l.length < l.length := Nat.mod_lt _ hlen
  rw [List.getD_eq_getElem l 0 hmod]
  exact List.getElem_mem hmod

/-- C2: with a well-parsed project, a session id, and feedback whose
satisfaction exceeds 0.8, `determine_layer_sequence` returns the first listed
transition of the (hard-coded) current layer of the active network, for every
randomness source — the reward path is deterministic. -/
theorem select_next_high_satisfaction (p : Project) (sid : String)
    (f : Feedback) (g : ℕ → ℚ) (h : ℕ → ℕ) (a : ℤ) (rest : List ℤ)
    (hok : p.metadata = none ∨ ∃ m, p.metadata = some (.ok m))
    (hsat : f.satisfaction.getD (7/10) > 4/5)
    (hadj : activeNet (some p) currentSelectLayer = a :: rest) :
    determine_layer_sequence (some p) (some sid) (some f) g h = [a] := by
  have hadj' : transitionNetwork (networkNameOf p) currentSelectLayer = a :: rest := hadj
  rcases hok with hmd | ⟨m, hmd⟩ <;>
    simp [determine_layer_sequence, hmd, selectNextLayer, hadj', hsat]

/-- Witness for C2: the default project (no metadata) selects the standard
network, whose layer-1 adjacency is `[2]`; satisfaction 0.95 yields `[2]`. -/
theorem select_next_high_satisfaction_witness :
    determine_layer_sequence (some ⟨none⟩) (some "s")
      (some ⟨some (19/20)⟩) (fun _ => 0) (fun _ => 0) = [2] :=
  select_next_high_satisfaction ⟨none⟩ "s" ⟨some (19/20)⟩ (fun _ => 0)
    (fun _ => 0) 2 [] (Or.inl rfl) (by norm_num) rfl

/-- C7: with a well-parsed project, a session id, feedback whose satisfaction
is below 0.4, and a nonempty adjacency for the current layer, every outcome of
`determine_layer_sequence` — over all draws — is a one-element sequence whose
element is in the adjacency list (the standard next stage or an alternative)
or is the current layer itself (a redo). -/
theorem select_next_low_satisfaction (p : Project) (sid : String)
    (f : Feedback) (g : ℕ → ℚ) (h : ℕ → ℕ)
    (hok : p.metadata = none ∨ ∃ m, p.metadata = some (.ok m))
    (hsat : f.satisfaction.getD (7/10) < 2/5)
    (hne : activeNet (some p) currentSelectLayer ≠ []) :
    ∃ x, determine_layer_sequence (some p) (some sid) (some f) g h = [x] ∧
      (x ∈ activeNet (some p) currentSelectLayer ∨ x = currentSelectLayer) := by
  obtain ⟨a, rest, hadj⟩ :
      ∃ a rest, activeNet (some p) currentSelectLayer = a :: rest := by
    rcases hx : activeNet (some p) currentSelectLayer with _ | ⟨a, rest⟩
    · exact absurd hx hne
    · exact ⟨a, rest, rfl⟩
  have hadj' : transitionNetwork (networkNameOf p) currentSelectLayer = a :: rest := hadj
  have hnothigh : ¬ (f.satisfaction.getD (7/10) > 4/5) := by linarith
  have hsel : determine_layer_sequence (some p) (some sid) (some f) g h =
      selectNextLayer (transitionNetwork (networkNameOf p))
        (f.satisfaction.getD (7/10)) g h := by
    rcases hok with hmd | ⟨m, hmd⟩ <;> simp [determine_layer_sequence, hmd]
  rw [hsel, selectNextLayer]
  rw [hadj']
  simp only [hnothigh, if_false, hsat, if_true, if_neg hnothigh, if_pos hsat]
  rw [hadj]
  split_ifs with h1 h2 h3 h4 h5 h6
  · exact ⟨_, rfl, Or.inl (List.mem_of_mem_filter (getD_mod_mem _ _ h1.2))⟩
  · exact ⟨_, rfl, Or.inr rfl⟩
  · exact ⟨_, rfl, Or.inl (List.mem_of_mem_filter (getD_mod_mem _ _ h4.2.1))⟩
  · exact ⟨_, rfl, Or.inl (List.mem_cons_self a rest)⟩
  · exact ⟨_, rfl, Or.inr rfl⟩
  · exact ⟨_, rfl, Or.inl (List.mem_of_mem_filter (getD_mod_mem _ _ h6.2.1))⟩
  · exact ⟨_, rfl, Or.inl (List.mem_cons_self a rest)⟩

/-- Witness for C7 at a concrete project, satisfaction 0.1 and concrete
draws. -/
theorem select_next_low_satisfaction_witness :
    ∃ x, determine_layer_sequence (some ⟨none⟩) (some "s")
        (some ⟨some (1/10)⟩) (fun _ => 1) (fun _ => 0) = [x] ∧
      (x ∈ activeNet (some ⟨none⟩) currentSelectLayer ∨
        x = currentSelectLayer) :=
  select_next_low_satisfaction ⟨none⟩ "s" ⟨some (1/10)⟩ (fun _ => 1)
    (fun _ => 0) (Or.inl rfl) (by norm_num) (by decide)

/-! ## MemoryStore: `CrossLayerMemory` -/

/-- Substring test on character lists (`needle in hay` for Python strings). -/
def charsContain (hay needle : List Char) : Bool :=
  needle.isPrefixOf hay ||
    match hay with
    | [] => false
    | _ :: t => charsContain t needle

/-- `sub in s` for Python strings. -/
def strContains (s sub : String) : Bool :=
  charsContain s.toList sub.toList

/-- A memory record.  Metadata values are `Option String`: `some` for a JSON
string value, `none` for any non-string value (which keyword matching skips
via its `isinstance(val, str)` check). -/
structure Memory where
  id : String
  session_id : String
  created_at : String
  source_layer : ℤ
  type : String
  priority : String
  content : String
  metadata : List (String × Option String)
  usage_count : ℕ
  last_accessed : Option String
deriving DecidableEq, Repr

/-- `PRIORITY_WEIGHTS.get(priority, 0.5)`. -/
def priorityWeight (p : String) : ℚ :=
  if p = "critical" then 1 else if p = "high" then 8/10
  else if p = "medium" then 5/10 else if p = "low" then 3/10 else 5/10

/-- `LAYER_RELEVANCE.get(source, {}).get(current, 0.0)`: the static 5×5
matrix over stages 1..5, zero anywhere else. -/
def layerRelevance (source current : ℤ) : ℚ :=
  if source = 1 then
    if current = 1 then 1 else if current = 2 then 9/10
    else if current = 3 then 7/10 else if current = 4 then 5/10
    else if current = 5 then 8/10 else 0
  else if source = 2 then
    if current = 1 then 4/10 else if current = 2 then 1
    else if current = 3 then 9/10 else if current = 4 then 7/10
    else if current = 5 then 7/10 else 0
  else if source = 3 then
    if current = 1 then 2/10 else if current = 2 then 5/10
    else if current = 3 then 1 else if current = 4 then 9/10
    else if current = 5 then 8/10 else 0
  else if source = 4 then
    if current = 1 then 3/10 else if current = 2 then 6/10
    else if current = 3 then 8/10 else if current = 4 then 1
    else if current = 5 then 9/10 else 0
  else if source = 5 then
    if current = 1 then 2/10 else if current = 2 then 3/10
    else if current = 3 then 4/10 else if current = 4 then 5/10
    else if current = 5 then 1 else 0
  else 0

/-- The keyword term of the relevance score: 0.5 when no keywords are given
(Python falsy `keywords`), else matches in lowercased content plus matches in
lowercased string metadata values, divided by `2 * len(keywords)`, capped
at 1. -/
def keywordScore (m : Memory) (keywords : List String) : ℚ :=
  if keywords = [] then 5/10
  else
    let content := m.content.toLower
    let contentMatches :=
      (keywords.filter (fun kw => strContains content kw.toLower)).length
    let metadataMatches :=
      (keywords.map (fun kw =>
        (m.metadata.filter (fun pr =>
          match pr.2 with
          | some v => strContains v.toLower kw.toLower
          | none => false)).length)).sum
    min 1 ((contentMatches + metadataMatches : ℚ) / (keywords.length * 2))

/-- `CrossLayerMemory._calculate_memory_relevance`:
`0.4·layer + 0.3·priority + 0.2·keyword + 0.1·usage`. -/
def calculate_memory_relevance (m : Memory) (current : ℤ)
    (keywords : List String) : ℚ :=
  layerRelevance m.source_layer current * (4/10) +
    priorityWeight m.priority * (3/10) +
    keywordScore m keywords * (2/10) +
    min 1 ((m.usage_count : ℚ) / 5) * (1/10)

/-- The five simulated records `get_relevant_memories` works over. -/
def sampleMemories (sid : String) : List Memory :=
  [{ id := "mem-" ++ sid ++ "-1-1001", session_id := sid,
     created_at := "2025-04-01T10:00:00Z", source_layer := 1,
     type := "constraint", priority := "critical",
     content := "User requires a responsive design that works on mobile devices",
     metadata := [("category", some "ui_requirement")],
     usage_count := 2, last_accessed := some "2025-04-01T11:30:00Z" },
   { id := "mem-" ++ sid ++ "-1-1002", session_id := sid,
     created_at := "2025-04-01T10:05:00Z", source_layer := 1,
     type := "decision", priority := "high",
     content := "Will use Flask for backend, Bootstrap for frontend",
     metadata := [("category", some "architecture")],
     usage_count := 3, last_accessed := some "2025-04-01T14:20:00Z" },
   { id := "mem-" ++ sid ++ "-2-2001", session_id := sid,
     created_at := "2025-04-01T11:15:00Z", source_layer := 2,
     type := "artifact", priority := "medium",
     content := "Database schema defines Users, Projects, and Comments tables",
     metadata := [("category", some "database"), ("artifact_type", some "schema")],
     usage_count := 1, last_accessed := some "2025-04-01T12:45:00Z" },
   { id := "mem-" ++ sid ++ "-3-3001", session_id := sid,
     created_at := "2025-04-01T13:30:00Z", source_layer := 3,
     type := "error", priority := "high",
     content := "Initial implementation had SQL injection vulnerability in search function",
     metadata := [("category", some "security"), ("fixed", none)],
     usage_count := 2, last_accessed := some "2025-04-01T15:10:00Z" },
   { id := "mem-" ++ sid ++ "-4-4001", session_id := sid,
     created_at := "2025-04-01T16:20:00Z", source_layer := 4,
     type := "insight", priority := "medium",
     content := "Adding database index on project name improved search performance by 40%",
     metadata := [("category", some "performance"), ("improvement", some "database")],
     usage_count := 1, last_accessed := some "2025-04-01T17:00:00Z" }]

/-- The in-call usage-statistics update applied to each returned record:
`memory['usage_count'] += 1; memory['last_accessed'] = utcnow()`. -/
def bumpUsage (now : String) (m : Memory) : Memory :=
  { m with usage_count := m.usage_count + 1, last_accessed := some now }

/-- `CrossLayerMemory.get_relevant_memories`.  The record store is the
simulated sample list rebuilt on every call; `now` stands for
`datetime.utcnow()`.  Filtering by type uses Python truthiness
(`if memory_types:`), scoring keeps strictly positive scores, sorting is
stable descending on the score (Python's stable `sort` with
`reverse=True`), and the top `limit` records get their usage statistics
bumped before being returned. -/
def get_relevant_memories (sid : String) (current : ℤ)
    (keywords : List String) (memory_types : List String) (limit : ℕ)
    (now : String) : List Memory :=
  let mems := sampleMemories sid
  let mems := if memory_types = [] then mems
    else mems.filter (fun m => memory_types.contains m.type)
  let scored := mems.filterMap (fun m =>
    let s := calculate_memory_relevance m current keywords
    if s > 0 then some (m, s) else none)
  let sorted := scored.mergeSort (fun a b => decide (b.2 ≤ a.2))
  let top := (sorted.take limit).map (fun pr => pr.1)
  top.map (bumpUsage now)

/-- Bumping the usage statistics never lowers a record's relevance: only the
usage factor changes, and it is nondecreasing in the usage count. -/
theorem bumpUsage_relevance_ge (now : String) (m : Memory) (current : ℤ)
    (kws : List String) :
    calculate_memory_relevance m current kws ≤
      calculate_memory_relevance (bumpUsage now m) current kws := by
  have hkw : keywordScore (bumpUsage now m) kws = keywordScore m kws := rfl
  have husage : min 1 ((m.usage_count : ℚ) / 5) ≤
      min 1 (((bumpUsage now m).usage_count : ℚ) / 5) := by
    refine min_le_min (le_refl 1) ?_
    have hc : (m.usage_count : ℚ) ≤ ((bumpUsage now m).usage_count : ℚ) := by
      simp [bumpUsage]
    linarith
  unfold calculate_memory_relevance
  rw [show (bumpUsage now m).source_layer = m.source_layer from rfl,
    show (bumpUsage now m).priority = m.priority from rfl, hkw]
  linarith [husage]

/-- C9: every record returned by `get_relevant_memories` has strictly
positive relevance under `_calculate_memory_relevance` (the 0.4/0.3/0.2/0.1
weighted combination of layer relevance, priority weight, keyword score and
usage factor): non-positive scores are filtered out before ranking, and the
usage bump applied to returned records can only increase the score. -/
theorem query_positive_relevance (sid : String) (current : ℤ)
    (keywords memory_types : List String) (limit : ℕ) (now : String)
    (m' : Memory)
    (hm : m' ∈ get_relevant_memories sid current keywords memory_types
      limit now) :
    0 < calculate_memory_relevance m' current keywords := by
  unfold get_relevant_memories at hm
  simp only at hm
  rw [List.mem_map] at hm
  obtain ⟨m0, hm0, rfl⟩ := hm
  rw [List.mem_map] at hm0
  obtain ⟨pr, hpr, rfl⟩ := hm0
  have hsorted := List.mem_of_mem_take hpr
  rw [List.mem_mergeSort] at hsorted
  rw [List.mem_filterMap] at hsorted
  obtain ⟨m1, _, heq⟩ := hsorted
  by_cases hpos : calculate_memory_relevance m1 current keywords > 0
  · rw [if_pos hpos] at heq
    cases heq
    exact lt_of_lt_of_le hpos (bumpUsage_relevance_ge now m1 current keywords)
  · rw [if_neg hpos] at heq
    cases heq

/-- C4 (code evaluated at the failing input): two successive `Query` calls on
session "s" from layer 2.  Within each call every returned record's
`usage_count` is one more than the stored sample value (third conjunct), but
the second call returns exactly the same counts as the first — the simulated
store is rebuilt on every call, so the increment never persists and repeated
queries do not accumulate usage. -/
theorem query_usage_not_persisted :
    (get_relevant_memories "s" 2 [] [] 10 "t1").map
        (fun m => (m.id, m.usage_count)) =
      [("mem-s-1-1001", 3), ("mem-s-1-1002", 4), ("mem-s-2-2001", 2),
        ("mem-s-3-3001", 3), ("mem-s-4-4001", 2)] ∧
    (get_relevant_memories "s" 2 [] [] 10 "t2").map
        (fun m => (m.id, m.usage_count)) =
      [("mem-s-1-1001", 3), ("mem-s-1-1002", 4), ("mem-s-2-2001", 2),
        ("mem-s-3-3001", 3), ("mem-s-4-4001", 2)] ∧
    (sampleMemories "s").map (fun m => (m.id, m.usage_count)) =
      [("mem-s-1-1001", 2), ("mem-s-1-1002", 3), ("mem-s-2-2001", 1),
        ("mem-s-3-3001", 2), ("mem-s-4-4001", 1)] := by
  refine ⟨?_, ?_, ?_⟩ <;>
    norm_num [get_relevant_memories, sampleMemories,
      calculate_memory_relevance, layerRelevance, priorityWeight,
      keywordScore, bumpUsage, List.mergeSort, List.filter, List.filterMap,
      min_def, show ¬("high" = "critical") from by decide,
      show ¬("medium" = "critical") from by decide,
      show ¬("medium" = "high") from by decide] <;>
    exact ⟨rfl, rfl, rfl, rfl, rfl⟩

/-- Evaluation of a type-filtered query: the single constraint record is
returned with its usage statistics bumped. -/
theorem query_constraint_eval :
    get_relevant_memories "s" 2 [] ["constraint"] 10 "t" =
      [{ id := "mem-s-1-1001", session_id := "s",
         created_at := "2025-04-01T10:00:00Z", source_layer := 1,
         type := "constraint", priority := "critical",
         content := "User requires a responsive design that works on mobile devices",
         metadata := [("category", some "ui_requirement")],
         usage_count := 3, last_accessed := some "t" }] := by
  norm_num [get_relevant_memories, sampleMemories, calculate_memory_relevance,
    layerRelevance, priorityWeight, keywordScore, bumpUsage, List.mergeSort,
    List.filter, List.filterMap, min_def]
  rfl

/-- Witness for C9: the record returned by a concrete query has strictly
positive relevance. -/
theorem query_positive_relevance_witness :
    0 < calculate_memory_relevance
      { id := "mem-s-1-1001", session_id := "s",
        created_at := "2025-04-01T10:00:00Z", source_layer := 1,
        type := "constraint", priority := "critical",
        content := "User requires a responsive design that works on mobile devices",
        metadata := [("category", some "ui_requirement")],
        usage_count := 3, last_accessed := some "t" } 2 [] :=
  query_positive_relevance "s" 2 [] ["constraint"] 10 "t" _
    (by rw [query_constraint_eval]; exact List.mem_singleton_self _)

/-! ## EvaluationEngine: `ProprietaryEvaluation.evaluate_layer_output` -/

/-- The six core evaluation dimensions. -/
inductive Dim where
  | completeness
  | correctness
  | efficiency
  | innovation
  | maintainability
  | usability
deriving DecidableEq, Repr, Fintype

/-- The dimension's key string in the source dictionaries. -/
def Dim.name : Dim → String
  | .completeness => "completeness"
  | .correctness => "correctness"
  | .efficiency => "efficiency"
  | .innovation => "innovation"
  | .maintainability => "maintainability"
  | .usability => "usability"

/-- The six dimensions in the insertion order of
`EVALUATION_DIMENSIONS` (= the order of `dimension_criteria_map`). -/
def dimList : List Dim :=
  [.completeness, .correctness, .efficiency, .innovation, .maintainability,
   .usability]

/-- `EVALUATION_DIMENSIONS[d]['weight']`, the fallback weight used when the
layer's `dimension_weights` table has no entry for `d`. -/
def defaultDimWeight : Dim → ℚ
  | .completeness => 25/100
  | .correctness => 25/100
  | .efficiency => 15/100
  | .innovation => 10/100
  | .maintainability => 15/100
  | .usability => 10/100

/-- The substring heuristics of `_calculate_dimension_scores`'s
`dimension_criteria_map`. -/
def dimMatchers : Dim → List String
  | .completeness => ["completeness", "coverage", "scope", "requirement"]
  | .correctness => ["correctness", "accuracy", "compliance", "soundness"]
  | .efficiency => ["efficiency", "performance", "resource", "optimization"]
  | .innovation => ["innovation", "creative", "unique"]
  | .maintainability => ["maintainability", "documentation", "organization"]
  | .usability => ["usability", "user", "interface", "experience"]

/-- `LAYER_CRITERIA[k]['criteria']`, the per-layer criteria lists in their
initial (class-definition) state.  Keys outside 0..11 are never read nor
written (`effKey` maps them to 1), so they carry `[]`. -/
def BASE_CRITERIA (k : ℤ) : List String :=
  if k = 0 then
    ["stakeholder_validation", "requirement_completeness",
     "feasibility_assessment", "acceptance_criteria_clarity",
     "constraint_identification"]
  else if k = 1 then
    ["requirement_clarity", "scope_definition", "constraint_identification",
     "user_story_completeness", "feasibility_assessment"]
  else if k = 2 then
    ["market_analysis_depth", "competitor_evaluation",
     "technology_assessment", "feasibility_validation", "risk_identification"]
  else if k = 3 then
    ["architecture_soundness", "technical_feasibility",
     "scalability_consideration", "dependency_management",
     "interface_definition"]
  else if k = 4 then
    ["concept_validation", "visual_representation", "implementation_fidelity",
     "user_feedback_collection", "rapid_iteration"]
  else if k = 5 then
    ["code_functionality", "api_implementation", "error_handling",
     "coding_standards", "test_coverage"]
  else if k = 6 then
    ["test_coverage", "edge_case_handling", "integration_validation",
     "security_testing", "performance_testing"]
  else if k = 7 then
    ["performance_improvement", "security_hardening", "resource_usage",
     "error_reduction", "edge_case_handling"]
  else if k = 8 then
    ["infrastructure_configuration", "ci_cd_pipeline_setup",
     "environment_provisioning", "deployment_automation",
     "rollback_procedures"]
  else if k = 9 then
    ["documentation_quality", "code_organization", "deployment_readiness",
     "user_guide_clarity", "overall_cohesion"]
  else if k = 10 then
    ["monitoring_coverage", "analytics_implementation",
     "feedback_collection_mechanisms", "alerting_system_setup",
     "dashboard_usability"]
  else if k = 11 then
    ["maintenance_planning", "roadmap_development",
     "technical_debt_management", "scalability_assessment",
     "long_term_sustainability"]
  else []

/-- `LAYER_CRITERIA[k]['dimension_weights']` as association lists (layer 0's
table uses the keys 'quality' and 'clarity', which none of the six dimensions
ever look up). -/
def LAYER_WEIGHTS (k : ℤ) : List (String × ℚ) :=
  if k = 0 then
    [("quality", 35/100), ("completeness", 30/100), ("clarity", 25/100),
     ("efficiency", 10/100)]
  else if k = 1 then
    [("completeness", 35/100), ("correctness", 20/100),
     ("efficiency", 5/100), ("innovation", 20/100),
     ("maintainability", 5/100), ("usability", 15/100)]
  else if k = 2 then
    [("completeness", 25/100), ("correctness", 30/100),
     ("efficiency", 10/100), ("innovation", 20/100),
     ("maintainability", 5/100), ("usability", 10/100)]
  else if k = 3 then
    [("completeness", 20/100), ("correctness", 35/100),
     ("efficiency", 15/100), ("innovation", 15/100),
     ("maintainability", 10/100), ("usability", 5/100)]
  else if k = 4 then
    [("completeness", 15/100), ("correctness", 20/100),
     ("efficiency", 10/100), ("innovation", 30/100),
     ("maintainability", 5/100), ("usability", 20/100)]
  else if k = 5 then
    [("completeness", 25/100), ("correctness", 30/100),
     ("efficiency", 15/100), ("innovation", 5/100),
     ("maintainability", 20/100), ("usability", 5/100)]
  else if k = 6 then
    [("completeness", 25/100), ("correctness", 40/100),
     ("efficiency", 15/100), ("innovation", 5/100),
     ("maintainability", 10/100), ("usability", 5/100)]
  else if k = 7 then
    [("completeness", 15/100), ("correctness", 25/100),
     ("efficiency", 30/100), ("innovation", 10/100),
     ("maintainability", 15/100), ("usability", 5/100)]
  else if k = 8 then
    [("completeness", 20/100), ("correctness", 30/100),
     ("efficiency", 25/100), ("innovation", 5/100),
     ("maintainability", 15/100), ("usability", 5/100)]
  else if k = 9 then
    [("completeness", 25/100), ("correctness", 15/100),
     ("efficiency", 10/100), ("innovation", 5/100),
     ("maintainability", 25/100), ("usability", 20/100)]
  else if k = 10 then
    [("completeness", 20/100), ("correctness", 20/100),
     ("efficiency", 15/100), ("innovation", 10/100),
     ("maintainability", 15/100), ("usability", 20/100)]
  else if k = 11 then
    [("completeness", 15/100), ("correctness", 15/100),
     ("efficiency", 10/100), ("innovation", 15/100),
     ("maintainability", 35/100), ("usability", 10/100)]
  else []

/-- `LAYER_CRITERIA.get(layer, LAYER_CRITERIA[1])`: the dictionary key an
evaluation actually reads (and, for the criteria list, writes). -/
def effKey (layer : ℤ) : ℤ :=
  if 0 ≤ layer ∧ layer ≤ 11 then layer else 1

/-- An entry of `ProprietaryEvaluation.INDUSTRY_ADJUSTMENTS`. -/
structure IndustryAdj where
  additional_criteria : List String
  dimension_weights : List (String × ℚ)
deriving DecidableEq, Repr

/-- The healthcare evaluation adjustment. -/
def healthcareAdjE : IndustryAdj :=
  { additional_criteria :=
      ["hipaa_compliance", "patient_data_security",
       "clinical_workflow_integration"]
    dimension_weights :=
      [("correctness", 13/10), ("efficiency", 9/10), ("usability", 12/10)] }

/-- The finance evaluation adjustment. -/
def financeAdjE : IndustryAdj :=
  { additional_criteria :=
      ["transaction_security", "audit_trail_completeness",
       "regulatory_compliance"]
    dimension_weights :=
      [("correctness", 14/10), ("efficiency", 11/10), ("innovation", 8/10)] }

/-- The education evaluation adjustment. -/
def educationAdjE : IndustryAdj :=
  { additional_criteria :=
      ["accessibility_compliance", "learning_outcome_alignment",
       "student_engagement"]
    dimension_weights :=
      [("usability", 14/10), ("completeness", 11/10), ("efficiency", 9/10)] }

/-- `ProprietaryEvaluation.INDUSTRY_ADJUSTMENTS` lookup. -/
def EVAL_INDUSTRY_ADJUSTMENTS (s : String) : Option IndustryAdj :=
  if s = "healthcare" then some healthcareAdjE
  else if s = "finance" then some financeAdjE
  else if s = "education" then some educationAdjE
  else none

/-- `assoc.get(key, default)` over an association list (Python dict lookup;
keys are unique in every table of the source, so first match is the match). -/
def lookupQ : List (String × ℚ) → String → ℚ → ℚ
  | [], _, d => d
  | pr :: rest, k, d => if pr.1 = k then pr.2 else lookupQ rest k d

/-- The industry branch of `evaluate_layer_output` on the weights: multiply
each entry by the industry's per-dimension multiplier (default 1.0) and
renormalize all entries by their sum. -/
def adjustWeights (w : List (String × ℚ)) (adj : IndustryAdj) :
    List (String × ℚ) :=
  let adjusted := w.map (fun pr =>
    (pr.1, pr.2 * lookupQ adj.dimension_weights pr.1 1))
  let s := (adjusted.map (fun pr => pr.2)).sum
  adjusted.map (fun pr => (pr.1, pr.2 / s))

/-- The `dimension_weights` table an evaluation combines scores with. -/
def weightsFor (key : ℤ) (adj : Option IndustryAdj) : List (String × ℚ) :=
  match adj with
  | some a => adjustWeights (LAYER_WEIGHTS key) a
  | none => LAYER_WEIGHTS key

/-- `dimension_weights.get(dimension, EVALUATION_DIMENSIONS[dimension]['weight'])`. -/
def usedWeight (w : List (String × ℚ)) (d : Dim) : ℚ :=
  lookupQ w d.name (defaultDimWeight d)

/-- The sum of the six dimension weights actually combined into
`overall_score` for a given layer key and industry adjustment. -/
def usedWeightSum (key : ℤ) (adj : Option IndustryAdj) : ℚ :=
  (dimList.map (usedWeight (weightsFor key adj))).sum

/-- The first, substring-matched pass building `dimension_criteria_map`. -/
def initialDimMap (criteria : List String) (d : Dim) : List String :=
  criteria.filter (fun c => (dimMatchers d).any (fun x => strContains c x))

/-- The substring fallback of the second pass: security/error → correctness,
test → maintainability, else completeness. -/
def fallbackDim (c : String) : Dim :=
  if strContains c "security" || strContains c "error" then .correctness
  else if strContains c "test" then .maintainability
  else .completeness

/-- The second pass of `_calculate_dimension_scores`: walk the criteria in
order and append each one assigned to no dimension yet to its fallback
dimension's list. -/
def finalDimMap (criteria : List String) : Dim → List String :=
  criteria.foldl (fun mp c =>
    if dimList.any (fun d => (mp d).contains c) then mp
    else fun d' => if d' = fallbackDim c then mp d' ++ [c] else mp d')
    (initialDimMap criteria)

/-- `metrics.get(criterion, 0.0)`. -/
def metricGet (metrics : List (String × ℚ)) (c : String) : ℚ :=
  lookupQ metrics c 0

/-- A dimension's score: the mean of its mapped criteria's metric values, or
the default 0.75 when no criterion mapped to it. -/
def dimScore (metrics : List (String × ℚ)) (criteria : List String)
    (d : Dim) : ℚ :=
  let l := finalDimMap criteria d
  if l = [] then 75/100 else (l.map (metricGet metrics)).sum / l.length

/-- `_generate_simulated_metrics`: one draw in [0.6, 0.95) per criterion. -/
def simulatedMetrics (criteria : List String) (g : ℕ → ℚ) :
    List (String × ℚ) :=
  criteria.enum.map (fun pr => (pr.2, 6/10 + g pr.1 * (35/100)))

/-- The industry resolution at the top of `evaluate_layer_output`: read
`metadata.get('industry')`, swallowing any parse failure. -/
def resolveIndustry : Option Project → Option String
  | some p =>
    match p.metadata with
    | some (.ok m) => m.industry
    | _ => none
  | none => none

/-- The mutable per-layer criteria lists of
`ProprietaryEvaluation.LAYER_CRITERIA` (the dictionary's value lists are
mutated in place by `criteria.extend(...)`). -/
def CritState := ℤ → List String

/-- The result dict of `evaluate_layer_output` (the recommendation list is
not modelled: no claim concerns it, and its `list(set(...))` ordering is
unspecified even in the source; the timestamp is likewise omitted). -/
structure EvalResult where
  overall_score : ℚ
  dimension_scores : List (Dim × ℚ)
  metric_scores : List (String × ℚ)

/-- `ProprietaryEvaluation.evaluate_layer_output`, with the mutable criteria
table threaded as explicit state.  With a registered industry the aliased
`criteria` list of the evaluated key is extended in place with the industry's
additional criteria (the returned state), and the dimension weights are
multiplied and renormalized into a fresh dict.  A falsy `metrics` argument
(absent or empty) is replaced by simulated draws.  The unused `output`
parameter of the source is not modelled. -/
def evaluate_layer_output (st : CritState) (project : Option Project)
    (layer : ℤ) (metrics : Option (List (String × ℚ))) (g : ℕ → ℚ) :
    EvalResult × CritState :=
  let industry := resolveIndustry project
  let adj := industry.bind EVAL_INDUSTRY_ADJUSTMENTS
  let key := effKey layer
  let criteria :=
    match adj with
    | some a => st key ++ a.additional_criteria
    | none => st key
  let st' : CritState :=
    match adj with
    | some _ => fun k => if k = key then criteria else st k
    | none => st
  let weights := weightsFor key adj
  let usedMetrics :=
    match metrics with
    | some ms => if ms = [] then simulatedMetrics criteria g else ms
    | none => simulatedMetrics criteria g
  ({ overall_score := (dimList.map (fun d =>
        dimScore usedMetrics criteria d * usedWeight weights d)).sum
     dimension_scores := dimList.map (fun d =>
        (d, dimScore usedMetrics criteria d))
     metric_scores := usedMetrics }, st')

/-! Decided inequalities between the dimension-table key strings, used as
rewrite lemmas when evaluating the weight tables. -/
/-- Key strings 'quality' and 'clarity' differ. -/
theorem strNe_quality_clarity : (("quality" : String) = "clarity") = False := by decide

/-- Key strings 'quality' and 'completeness' differ. -/
theorem strNe_quality_completeness : (("quality" : String) = "completeness") = False := by decide

/-- Key strings 'quality' and 'correctness' differ. -/
theorem strNe_quality_correctness : (("quality" : String) = "correctness") = False := by decide

/-- Key strings 'quality' and 'efficiency' differ. -/
theorem strNe_quality_efficiency : (("quality" : String) = "efficiency") = False := by decide

/-- Key strings 'quality' and 'innovation' differ. -/
theorem strNe_quality_innovation : (("quality" : String) = "innovation") = False := by decide

/-- Key strings 'quality' and 'maintainability' differ. -/
theorem strNe_quality_maintainability : (("quality" : String) = "maintainability") = False := by decide

/-- Key strings 'quality' and 'usability' differ. -/
theorem strNe_quality_usability : (("quality" : String) = "usability") = False := by decide

/-- Key strings 'clarity' and 'quality' differ. -/
theorem strNe_clarity_quality : (("clarity" : String) = "quality") = False := by decide

/-- Key strings 'clarity' and 'completeness' differ. -/
theorem strNe_clarity_completeness : (("clarity" : String) = "completeness") = False := by decide

/-- Key strings 'clarity' and 'correctness' differ. -/
theorem strNe_clarity_correctness : (("clarity" : String) = "correctness") = False := by decide

/-- Key strings 'clarity' and 'efficiency' differ. -/
theorem strNe_clarity_efficiency : (("clarity" : String) = "efficiency") = False := by decide

/-- Key strings 'clarity' and 'innovation' differ. -/
theorem strNe_clarity_innovation : (("clarity" : String) = "innovation") = False := by decide

/-- Key strings 'clarity' and 'maintainability' differ. -/
theorem strNe_clarity_maintainability : (("clarity" : String) = "maintainability") = False := by decide

/-- Key strings 'clarity' and 'usability' differ. -/
theorem strNe_clarity_usability : (("clarity" : String) = "usability") = False := by decide

/-- Key strings 'completeness' and 'quality' differ. -/
theorem strNe_completeness_quality : (("completeness" : String) = "quality") = False := by decide

/-- Key strings 'completeness' and 'clarity' differ. -/
theorem strNe_completeness_clarity : (("completeness" : String) = "clarity") = False := by decide

/-- Key strings 'completeness' and 'correctness' differ. -/
theorem strNe_completeness_correctness : (("completeness" : String) = "correctness") = False := by decide

/-- Key strings 'completeness' and 'efficiency' differ. -/
theorem strNe_completeness_efficiency : (("completeness" : String) = "efficiency") = False := by decide

/-- Key strings 'completeness' and 'innovation' differ. -/
theorem strNe_completeness_innovation : (("completeness" : String) = "innovation") = False := by decide

/-- Key strings 'completeness' and 'maintainability' differ. -/
theorem strNe_completeness_maintainability : (("completeness" : String) = "maintainability") = False := by decide

/-- Key strings 'completeness' and 'usability' differ. -/
theorem strNe_completeness_usability : (("completeness" : String) = "usability") = False := by decide

/-- Key strings 'correctness' and 'quality' differ. -/
theorem strNe_correctness_quality : (("correctness" : String) = "quality") = False := by decide

/-- Key strings 'correctness' and 'clarity' differ. -/
theorem strNe_correctness_clarity : (("correctness" : String) = "clarity") = False := by decide

/-- Key strings 'correctness' and 'completeness' differ. -/
theorem strNe_correctness_completeness : (("correctness" : String) = "completeness") = False := by decide

/-- Key strings 'correctness' and 'efficiency' differ. -/
theorem strNe_correctness_efficiency : (("correctness" : String) = "efficiency") = False := by decide

/-- Key strings 'correctness' and 'innovation' differ. -/
theorem strNe_correctness_innovation : (("correctness" : String) = "innovation") = False := by decide

/-- Key strings 'correctness' and 'maintainability' differ. -/
theorem strNe_correctness_maintainability : (("correctness" : String) = "maintainability") = False := by decide

/-- Key strings 'correctness' and 'usability' differ. -/
theorem strNe_correctness_usability : (("correctness" : String) = "usability") = False := by decide

/-- Key strings 'efficiency' and 'quality' differ. -/
theorem strNe_efficiency_quality : (("efficiency" : String) = "quality") = False := by decide

/-- Key strings 'efficiency' and 'clarity' differ. -/
theorem strNe_efficiency_clarity : (("efficiency" : String) = "clarity") = False := by decide

/-- Key strings 'efficiency' and 'completeness' differ. -/
theorem strNe_efficiency_completeness : (("efficiency" : String) = "completeness") = False := by decide

/-- Key strings 'efficiency' and 'correctness' differ. -/
theorem strNe_efficiency_correctness : (("efficiency" : String) = "correctness") = False := by decide

/-- Key strings 'efficiency' and 'innovation' differ. -/
theorem strNe_efficiency_innovation : (("efficiency" : String) = "innovation") = False := by decide

/-- Key strings 'efficiency' and 'maintainability' differ. -/
theorem strNe_efficiency_maintainability : (("efficiency" : String) = "maintainability") = False := by decide

/-- Key strings 'efficiency' and 'usability' differ. -/
theorem strNe_efficiency_usability : (("efficiency" : String) = "usability") = False := by decide

/-- Key strings 'innovation' and 'quality' differ. -/
theorem strNe_innovation_quality : (("innovation" : String) = "quality") = False := by decide

/-- Key strings 'innovation' and 'clarity' differ. -/
theorem strNe_innovation_clarity : (("innovation" : String) = "clarity") = False := by decide

/-- Key strings 'innovation' and 'completeness' differ. -/
theorem strNe_innovation_completeness : (("innovation" : String) = "completeness") = False := by decide

/-- Key strings 'innovation' and 'correctness' differ. -/
theorem strNe_innovation_correctness : (("innovation" : String) = "correctness") = False := by decide

/-- Key strings 'innovation' and 'efficiency' differ. -/
theorem strNe_innovation_efficiency : (("innovation" : String) = "efficiency") = False := by decide

/-- Key strings 'innovation' and 'maintainability' differ. -/
theorem strNe_innovation_maintainability : (("innovation" : String) = "maintainability") = False := by decide

/-- Key strings 'innovation' and 'usability' differ. -/
theorem strNe_innovation_usability : (("innovation" : String) = "usability") = False := by decide

/-- Key strings 'maintainability' and 'quality' differ. -/
theorem strNe_maintainability_quality : (("maintainability" : String) = "quality") = False := by decide

/-- Key strings 'maintainability' and 'clarity' differ. -/
theorem strNe_maintainability_clarity : (("maintainability" : String) = "clarity") = False := by decide

/-- Key strings 'maintainability' and 'completeness' differ. -/
theorem strNe_maintainability_completeness : (("maintainability" : String) = "completeness") = False := by decide

/-- Key strings 'maintainability' and 'correctness' differ. -/
theorem strNe_maintainability_correctness : (("maintainability" : String) = "correctness") = False := by decide

/-- Key strings 'maintainability' and 'efficiency' differ. -/
theorem strNe_maintainability_efficiency : (("maintainability" : String) = "efficiency") = False := by decide

/-- Key strings 'maintainability' and 'innovation' differ. -/
theorem strNe_maintainability_innovation : (("maintainability" : String) = "innovation") = False := by decide

/-- Key strings 'maintainability' and 'usability' differ. -/
theorem strNe_maintainability_usability : (("maintainability" : String) = "usability") = False := by decide

/-- Key strings 'usability' and 'quality' differ. -/
theorem strNe_usability_quality : (("usability" : String) = "quality") = False := by decide

/-- Key strings 'usability' and 'clarity' differ. -/
theorem strNe_usability_clarity : (("usability" : String) = "clarity") = False := by decide

/-- Key strings 'usability' and 'completeness' differ. -/
theorem strNe_usability_completeness : (("usability" : String) = "completeness") = False := by decide

/-- Key strings 'usability' and 'correctness' differ. -/
theorem strNe_usability_correctness : (("usability" : String) = "correctness") = False := by decide

/-- Key strings 'usability' and 'efficiency' differ. -/
theorem strNe_usability_efficiency : (("usability" : String) = "efficiency") = False := by decide

/-- Key strings 'usability' and 'innovation' differ. -/
theorem strNe_usability_innovation : (("usability" : String) = "innovation") = False := by decide

/-- Key strings 'usability' and 'maintainability' differ. -/
theorem strNe_usability_maintainability : (("usability" : String) = "maintainability") = False := by decide

/-- A dict lookup over nonnegative values with a nonnegative default is
nonnegative. -/
theorem lookupQ_nonneg (l : List (String × ℚ)) (k : String) (d : ℚ)
    (hl : ∀ pr ∈ l, 0 ≤ pr.2) (hd : 0 ≤ d) : 0 ≤ lookupQ l k d := by
  induction l with
  | nil => simpa [lookupQ] using hd
  | cons pr rest ih =>
    rw [lookupQ]
    split
    · exact hl pr (List.mem_cons_self pr rest)
    · exact ih fun q hq => hl q (List.mem_cons_of_mem pr hq)

/-- The layer keys an evaluation can actually touch. -/
def layerKeys : List ℤ := [0, 1, 2, 3, 4, 5, 6, 7, 8, 9, 10, 11]

/-- The effective criteria key is always one of the twelve table keys. -/
theorem effKey_mem (layer : ℤ) : effKey layer ∈ layerKeys := by
  unfold effKey layerKeys
  split
  · rename_i h
    obtain ⟨h0, h11⟩ := h
    interval_cases layer <;> simp
  · simp

/-- Every static layer weight table has nonnegative entries. -/
theorem LAYER_WEIGHTS_nonneg (k : ℤ) (hk : k ∈ layerKeys) :
    ∀ pr ∈ LAYER_WEIGHTS k, 0 ≤ pr.2 := by
  simp only [layerKeys, List.mem_cons, List.not_mem_nil, or_false] at hk
  rcases hk with rfl|rfl|rfl|rfl|rfl|rfl|rfl|rfl|rfl|rfl|rfl|rfl <;>
    norm_num [LAYER_WEIGHTS, List.forall_mem_cons]

/-- Every registered industry multiplier table has nonnegative entries. -/
theorem industry_mult_nonneg (adj : IndustryAdj)
    (ha : adj = healthcareAdjE ∨ adj = financeAdjE ∨ adj = educationAdjE) :
    ∀ pr ∈ adj.dimension_weights, 0 ≤ pr.2 := by
  rcases ha with rfl | rfl | rfl <;>
    norm_num [List.forall_mem_cons, healthcareAdjE, financeAdjE,
      educationAdjE]

/-- Renormalized industry-adjusted weights stay nonnegative. -/
theorem adjustWeights_nonneg (w : List (String × ℚ)) (adj : IndustryAdj)
    (hw : ∀ pr ∈ w, 0 ≤ pr.2) (hm : ∀ pr ∈ adj.dimension_weights, 0 ≤ pr.2) :
    ∀ pr ∈ adjustWeights w adj, 0 ≤ pr.2 := by
  intro pr hpr
  simp only [adjustWeights, List.mem_map] at hpr
  obtain ⟨q, ⟨r, hr, rfl⟩, rfl⟩ := hpr
  refine div_nonneg (mul_nonneg (hw r hr) (lookupQ_nonneg _ _ _ hm (by norm_num))) ?_
  apply List.sum_nonneg
  intro x hx
  simp only [List.mem_map] at hx
  obtain ⟨q2, ⟨r2, hr2, rfl⟩, rfl⟩ := hx
  exact mul_nonneg (hw r2 hr2) (lookupQ_nonneg _ _ _ hm (by norm_num))

/-- Every dimension weight actually combined into the overall score is
nonnegative, for every layer key and registered (or absent) adjustment. -/
theorem usedWeight_nonneg (key : ℤ) (adj : Option IndustryAdj) (d : Dim)
    (hk : key ∈ layerKeys)
    (ha : adj = none ∨ adj = some healthcareAdjE ∨ adj = some financeAdjE ∨
      adj = some educationAdjE) :
    0 ≤ usedWeight (weightsFor key adj) d := by
  have hdflt : 0 ≤ defaultDimWeight d := by cases d <;> norm_num [defaultDimWeight]
  rcases ha with rfl | rfl | rfl | rfl
  · exact lookupQ_nonneg _ _ _ (LAYER_WEIGHTS_nonneg key hk) hdflt
  all_goals
    exact lookupQ_nonneg _ _ _
      (adjustWeights_nonneg _ _ (LAYER_WEIGHTS_nonneg key hk)
        (industry_mult_nonneg _ (by first
          | exact Or.inl rfl
          | exact Or.inr (Or.inl rfl)
          | exact Or.inr (Or.inr rfl))))
      hdflt

/-- A metric value read with default 0 lies in [0, 1] when every supplied
metric value does. -/
theorem metricGet_bounds (metrics : List (String × ℚ))
    (hm : ∀ pr ∈ metrics, 0 ≤ pr.2 ∧ pr.2 ≤ 1) (c : String) :
    0 ≤ metricGet metrics c ∧ metricGet metrics c ≤ 1 := by
  unfold metricGet
  induction metrics with
  | nil => norm_num [lookupQ]
  | cons pr rest ih =>
    rw [lookupQ]
    split
    · exact hm pr (List.mem_cons_self pr rest)
    · exact ih fun q hq => hm q (List.mem_cons_of_mem pr hq)

/-- Every dimension score lies in [0, 1] when the supplied metric values do:
it is either the default 0.75 or a mean of values in [0, 1]. -/
theorem dimScore_bounds (metrics : List (String × ℚ)) (criteria : List String)
    (d : Dim) (hm : ∀ pr ∈ metrics, 0 ≤ pr.2 ∧ pr.2 ≤ 1) :
    0 ≤ dimScore metrics criteria d ∧ dimScore metrics criteria d ≤ 1 := by
  by_cases hne : finalDimMap criteria d = []
  · simp only [dimScore]
    rw [if_pos hne]
    norm_num
  · simp only [dimScore]
    rw [if_neg hne]
    have hlen : 0 < ((finalDimMap criteria d).length : ℚ) := by
      have := List.length_pos.mpr hne
      exact_mod_cast this
    constructor
    · apply div_nonneg ?_ (le_of_lt hlen)
      apply List.sum_nonneg
      intro x hx
      rw [List.mem_map] at hx
      obtain ⟨c, _, rfl⟩ := hx
      exact (metricGet_bounds metrics hm c).1
    · rw [div_le_one hlen]
      have hb : ((finalDimMap criteria d).map (metricGet metrics)).sum ≤
          ((finalDimMap criteria d).map (metricGet metrics)).length • (1 : ℚ) := by
        apply List.sum_le_card_nsmul
        intro x hx
        rw [List.mem_map] at hx
        obtain ⟨c, _, rfl⟩ := hx
        exact (metricGet_bounds metrics hm c).2
      rw [List.length_map] at hb
      simpa using hb

/-- The convex-combination bound: if every score is in [0, 1], every weight
is nonnegative, dimensions flagged by `pin` score exactly 0.75, and the
pinned weight sum is at most 1, then the weighted total is in [0, 1]. -/
theorem convex_sum_bounds (s w : Dim → ℚ) (pin : Dim → Bool)
    (hs : ∀ d, 0 ≤ s d ∧ s d ≤ 1)
    (hpin : ∀ d, pin d = true → s d = 75/100)
    (hw : ∀ d ∈ dimList, 0 ≤ w d)
    (hsum : (dimList.map (fun d =>
      if pin d then (75/100) * w d else w d)).sum ≤ 1) :
    0 ≤ (dimList.map (fun d => s d * w d)).sum ∧
      (dimList.map (fun d => s d * w d)).sum ≤ 1 := by
  constructor
  · apply List.sum_nonneg
    intro x hx
    rw [List.mem_map] at hx
    obtain ⟨d, hd, rfl⟩ := hx
    exact mul_nonneg (hs d).1 (hw d hd)
  · refine le_trans (List.sum_le_sum ?_) hsum
    intro d hd
    by_cases hp : pin d
    · rw [if_pos hp, hpin d hp]
    · rw [if_neg hp]
      exact mul_le_of_le_one_left (hw d hd) (hs d).2

/-- A resolved industry string yields one of the three registered evaluation
adjustments, or none. -/
theorem adjOptBind_cases (o : Option String) :
    o.bind EVAL_INDUSTRY_ADJUSTMENTS = none ∨
      o.bind EVAL_INDUSTRY_ADJUSTMENTS = some healthcareAdjE ∨
      o.bind EVAL_INDUSTRY_ADJUSTMENTS = some financeAdjE ∨
      o.bind EVAL_INDUSTRY_ADJUSTMENTS = some educationAdjE := by
  cases o with
  | none => exact Or.inl rfl
  | some s =>
    have hb : (some s).bind EVAL_INDUSTRY_ADJUSTMENTS =
        EVAL_INDUSTRY_ADJUSTMENTS s := rfl
    rw [hb]
    unfold EVAL_INDUSTRY_ADJUSTMENTS
    split_ifs <;> simp

set_option maxHeartbeats 2000000 in
/-- The sum of the six combined dimension weights, for every reachable layer
key and adjustment: exactly 1 except for layer 0 with a registered industry,
whose partially covered weight table breaks the renormalization. -/
theorem usedWeightSum_cases (key : ℤ) (adj : Option IndustryAdj)
    (hk : key ∈ layerKeys)
    (ha : adj = none ∨ adj = some healthcareAdjE ∨ adj = some financeAdjE ∨
      adj = some educationAdjE) :
    usedWeightSum key adj = 1 ∨
      (key = 0 ∧ adj = some healthcareAdjE ∧
        usedWeightSum key adj = 164/165) ∨
      (key = 0 ∧ adj = some financeAdjE ∧ usedWeightSum key adj = 508/505) ∨
      (key = 0 ∧ adj = some educationAdjE ∧ usedWeightSum key adj = 86/85) := by
  simp only [layerKeys, List.mem_cons, List.not_mem_nil, or_false] at hk
  rcases ha with rfl | rfl | rfl | rfl <;>
    rcases hk with rfl|rfl|rfl|rfl|rfl|rfl|rfl|rfl|rfl|rfl|rfl|rfl <;>
    first
      | (right; left
         refine ⟨rfl, rfl, ?_⟩
         norm_num [usedWeightSum, weightsFor, adjustWeights, LAYER_WEIGHTS,
           usedWeight, lookupQ, dimList, Dim.name, defaultDimWeight,
           healthcareAdjE, strNe_quality_clarity, strNe_quality_completeness, strNe_quality_correctness, strNe_quality_efficiency, strNe_quality_innovation, strNe_quality_maintainability, strNe_quality_usability, strNe_clarity_quality, strNe_clarity_completeness, strNe_clarity_correctness, strNe_clarity_efficiency, strNe_clarity_innovation, strNe_clarity_maintainability, strNe_clarity_usability, strNe_completeness_quality, strNe_completeness_clarity, strNe_completeness_correctness, strNe_completeness_efficiency, strNe_completeness_innovation, strNe_completeness_maintainability, strNe_completeness_usability, strNe_correctness_quality, strNe_correctness_clarity, strNe_correctness_completeness, strNe_correctness_efficiency, strNe_correctness_innovation, strNe_correctness_maintainability, strNe_correctness_usability, strNe_efficiency_quality, strNe_efficiency_clarity, strNe_efficiency_completeness, strNe_efficiency_correctness, strNe_efficiency_innovation, strNe_efficiency_maintainability, strNe_efficiency_usability, strNe_innovation_quality, strNe_innovation_clarity, strNe_innovation_completeness, strNe_innovation_correctness, strNe_innovation_efficiency, strNe_innovation_maintainability, strNe_innovation_usability, strNe_maintainability_quality, strNe_maintainability_clarity, strNe_maintainability_completeness, strNe_maintainability_correctness, strNe_maintainability_efficiency, strNe_maintainability_innovation, strNe_maintainability_usability, strNe_usability_quality, strNe_usability_clarity, strNe_usability_completeness, strNe_usability_correctness, strNe_usability_efficiency, strNe_usability_innovation, strNe_usability_maintainability])
      | (right; right; left
         refine ⟨rfl, rfl, ?_⟩
         norm_num [usedWeightSum, weightsFor, adjustWeights, LAYER_WEIGHTS,
           usedWeight, lookupQ, dimList, Dim.name, defaultDimWeight,
           financeAdjE, strNe_quality_clarity, strNe_quality_completeness, strNe_quality_correctness, strNe_quality_efficiency, strNe_quality_innovation, strNe_quality_maintainability, strNe_quality_usability, strNe_clarity_quality, strNe_clarity_completeness, strNe_clarity_correctness, strNe_clarity_efficiency, strNe_clarity_innovation, strNe_clarity_maintainability, strNe_clarity_usability, strNe_completeness_quality, strNe_completeness_clarity, strNe_completeness_correctness, strNe_completeness_efficiency, strNe_completeness_innovation, strNe_completeness_maintainability, strNe_completeness_usability, strNe_correctness_quality, strNe_correctness_clarity, strNe_correctness_completeness, strNe_correctness_efficiency, strNe_correctness_innovation, strNe_correctness_maintainability, strNe_correctness_usability, strNe_efficiency_quality, strNe_efficiency_clarity, strNe_efficiency_completeness, strNe_efficiency_correctness, strNe_efficiency_innovation, strNe_efficiency_maintainability, strNe_efficiency_usability, strNe_innovation_quality, strNe_innovation_clarity, strNe_innovation_completeness, strNe_innovation_correctness, strNe_innovation_efficiency, strNe_innovation_maintainability, strNe_innovation_usability, strNe_maintainability_quality, strNe_maintainability_clarity, strNe_maintainability_completeness, strNe_maintainability_correctness, strNe_maintainability_efficiency, strNe_maintainability_innovation, strNe_maintainability_usability, strNe_usability_quality, strNe_usability_clarity, strNe_usability_completeness, strNe_usability_correctness, strNe_usability_efficiency, strNe_usability_innovation, strNe_usability_maintainability])
      | (right; right; right
         refine ⟨rfl, rfl, ?_⟩
         norm_num [usedWeightSum, weightsFor, adjustWeights, LAYER_WEIGHTS,
           usedWeight, lookupQ, dimList, Dim.name, defaultDimWeight,
           educationAdjE, strNe_quality_clarity, strNe_quality_completeness, strNe_quality_correctness, strNe_quality_efficiency, strNe_quality_innovation, strNe_quality_maintainability, strNe_quality_usability, strNe_clarity_quality, strNe_clarity_completeness, strNe_clarity_correctness, strNe_clarity_efficiency, strNe_clarity_innovation, strNe_clarity_maintainability, strNe_clarity_usability, strNe_completeness_quality, strNe_completeness_clarity, strNe_completeness_correctness, strNe_completeness_efficiency, strNe_completeness_innovation, strNe_completeness_maintainability, strNe_completeness_usability, strNe_correctness_quality, strNe_correctness_clarity, strNe_correctness_completeness, strNe_correctness_efficiency, strNe_correctness_innovation, strNe_correctness_maintainability, strNe_correctness_usability, strNe_efficiency_quality, strNe_efficiency_clarity, strNe_efficiency_completeness, strNe_efficiency_correctness, strNe_efficiency_innovation, strNe_efficiency_maintainability, strNe_efficiency_usability, strNe_innovation_quality, strNe_innovation_clarity, strNe_innovation_completeness, strNe_innovation_correctness, strNe_innovation_efficiency, strNe_innovation_maintainability, strNe_innovation_usability, strNe_maintainability_quality, strNe_maintainability_clarity, strNe_maintainability_completeness, strNe_maintainability_correctness, strNe_maintainability_efficiency, strNe_maintainability_innovation, strNe_maintainability_usability, strNe_usability_quality, strNe_usability_clarity, strNe_usability_completeness, strNe_usability_correctness, strNe_usability_efficiency, strNe_usability_innovation, strNe_usability_maintainability])
      | (left
         norm_num [usedWeightSum, weightsFor, adjustWeights, LAYER_WEIGHTS,
           usedWeight, lookupQ, dimList, Dim.name, defaultDimWeight,
           healthcareAdjE, financeAdjE, educationAdjE, strNe_quality_clarity, strNe_quality_completeness, strNe_quality_correctness, strNe_quality_efficiency, strNe_quality_innovation, strNe_quality_maintainability, strNe_quality_usability, strNe_clarity_quality, strNe_clarity_completeness, strNe_clarity_correctness, strNe_clarity_efficiency, strNe_clarity_innovation, strNe_clarity_maintainability, strNe_clarity_usability, strNe_completeness_quality, strNe_completeness_clarity, strNe_completeness_correctness, strNe_completeness_efficiency, strNe_completeness_innovation, strNe_completeness_maintainability, strNe_completeness_usability, strNe_correctness_quality, strNe_correctness_clarity, strNe_correctness_completeness, strNe_correctness_efficiency, strNe_correctness_innovation, strNe_correctness_maintainability, strNe_correctness_usability, strNe_efficiency_quality, strNe_efficiency_clarity, strNe_efficiency_completeness, strNe_efficiency_correctness, strNe_efficiency_innovation, strNe_efficiency_maintainability, strNe_efficiency_usability, strNe_innovation_quality, strNe_innovation_clarity, strNe_innovation_completeness, strNe_innovation_correctness, strNe_innovation_efficiency, strNe_innovation_maintainability, strNe_innovation_usability, strNe_maintainability_quality, strNe_maintainability_clarity, strNe_maintainability_completeness, strNe_maintainability_correctness, strNe_maintainability_efficiency, strNe_maintainability_innovation, strNe_maintainability_usability, strNe_usability_quality, strNe_usability_clarity, strNe_usability_completeness, strNe_usability_correctness, strNe_usability_efficiency, strNe_usability_innovation, strNe_usability_maintainability])

/-- Which dimensions receive criteria in a layer-0 + finance evaluation:
only completeness and correctness; the other four fall back to the default
score 0.75. -/
theorem finPin0 :
    finalDimMap (BASE_CRITERIA 0 ++ ["transaction_security",
        "audit_trail_completeness", "regulatory_compliance"])
      Dim.completeness ≠ [] ∧
    finalDimMap (BASE_CRITERIA 0 ++ ["transaction_security",
        "audit_trail_completeness", "regulatory_compliance"])
      Dim.correctness ≠ [] ∧
    finalDimMap (BASE_CRITERIA 0 ++ ["transaction_security",
        "audit_trail_completeness", "regulatory_compliance"])
      Dim.efficiency = [] ∧
    finalDimMap (BASE_CRITERIA 0 ++ ["transaction_security",
        "audit_trail_completeness", "regulatory_compliance"])
      Dim.innovation = [] ∧
    finalDimMap (BASE_CRITERIA 0 ++ ["transaction_security",
        "audit_trail_completeness", "regulatory_compliance"])
      Dim.maintainability = [] ∧
    finalDimMap (BASE_CRITERIA 0 ++ ["transaction_security",
        "audit_trail_completeness", "regulatory_compliance"])
      Dim.usability = [] := by
  refine ⟨by decide, by decide, by decide, by decide, by decide, by decide⟩

/-- Which dimensions receive criteria in a layer-0 + education evaluation. -/
theorem eduPin0 :
    finalDimMap (BASE_CRITERIA 0 ++ ["accessibility_compliance",
        "learning_outcome_alignment", "student_engagement"])
      Dim.completeness ≠ [] ∧
    finalDimMap (BASE_CRITERIA 0 ++ ["accessibility_compliance",
        "learning_outcome_alignment", "student_engagement"])
      Dim.correctness ≠ [] ∧
    finalDimMap (BASE_CRITERIA 0 ++ ["accessibility_compliance",
        "learning_outcome_alignment", "student_engagement"])
      Dim.efficiency = [] ∧
    finalDimMap (BASE_CRITERIA 0 ++ ["accessibility_compliance",
        "learning_outcome_alignment", "student_engagement"])
      Dim.innovation = [] ∧
    finalDimMap (BASE_CRITERIA 0 ++ ["accessibility_compliance",
        "learning_outcome_alignment", "student_engagement"])
      Dim.maintainability = [] ∧
    finalDimMap (BASE_CRITERIA 0 ++ ["accessibility_compliance",
        "learning_outcome_alignment", "student_engagement"])
      Dim.usability = [] := by
  refine ⟨by decide, by decide, by decide, by decide, by decide, by decide⟩

set_option maxHeartbeats 1000000 in
/-- The weight total that bounds the overall score from above — each pinned
(criteria-less) dimension contributes 0.75 of its weight, the others their
full weight — is at most 1 for every reachable layer key and registered (or
absent) adjustment, including the two layer-0 cases whose raw weight sum
exceeds 1. -/
theorem pinnedWeightSum_le_one (key : ℤ) (adj : Option IndustryAdj)
    (hk : key ∈ layerKeys)
    (ha : adj = none ∨ adj = some healthcareAdjE ∨ adj = some financeAdjE ∨
      adj = some educationAdjE)
    (criteria : List String)
    (hcrit : criteria = BASE_CRITERIA key ++
      ((adj.map (fun a => a.additional_criteria)).getD [])) :
    (dimList.map (fun d =>
      if decide (finalDimMap criteria d = []) then
        (75/100) * usedWeight (weightsFor key adj) d
      else usedWeight (weightsFor key adj) d)).sum ≤ 1 := by
  have hw : ∀ d ∈ dimList, 0 ≤ usedWeight (weightsFor key adj) d :=
    fun d _ => usedWeight_nonneg key adj d hk ha
  have hpoint : (dimList.map (fun d =>
      if decide (finalDimMap criteria d = []) then
        (75/100) * usedWeight (weightsFor key adj) d
      else usedWeight (weightsFor key adj) d)).sum ≤ usedWeightSum key adj := by
    rw [usedWeightSum]
    apply List.sum_le_sum
    intro d hd
    split
    · have := hw d hd
      linarith
    · exact le_refl _
  rcases usedWeightSum_cases key adj hk ha with h1 | ⟨_, _, h1⟩ | hsp | hsp
  · exact le_trans hpoint (le_of_eq h1)
  · exact le_trans hpoint (by rw [h1]; norm_num)
  · obtain ⟨rfl, rfl, _⟩ := hsp
    simp only [Option.map_some', Option.getD_some] at hcrit
    subst hcrit
    norm_num [dimList, finPin0.1, finPin0.2.1, finPin0.2.2.1,
      finPin0.2.2.2.1, finPin0.2.2.2.2.1, finPin0.2.2.2.2.2,
      usedWeight, weightsFor, adjustWeights, LAYER_WEIGHTS, lookupQ,
      Dim.name, defaultDimWeight, financeAdjE, strNe_quality_clarity, strNe_quality_completeness, strNe_quality_correctness, strNe_quality_efficiency, strNe_quality_innovation, strNe_quality_maintainability, strNe_quality_usability, strNe_clarity_quality, strNe_clarity_completeness, strNe_clarity_correctness, strNe_clarity_efficiency, strNe_clarity_innovation, strNe_clarity_maintainability, strNe_clarity_usability, strNe_completeness_quality, strNe_completeness_clarity, strNe_completeness_correctness, strNe_completeness_efficiency, strNe_completeness_innovation, strNe_completeness_maintainability, strNe_completeness_usability, strNe_correctness_quality, strNe_correctness_clarity, strNe_correctness_completeness, strNe_correctness_efficiency, strNe_correctness_innovation, strNe_correctness_maintainability, strNe_correctness_usability, strNe_efficiency_quality, strNe_efficiency_clarity, strNe_efficiency_completeness, strNe_efficiency_correctness, strNe_efficiency_innovation, strNe_efficiency_maintainability, strNe_efficiency_usability, strNe_innovation_quality, strNe_innovation_clarity, strNe_innovation_completeness, strNe_innovation_correctness, strNe_innovation_efficiency, strNe_innovation_maintainability, strNe_innovation_usability, strNe_maintainability_quality, strNe_maintainability_clarity, strNe_maintainability_completeness, strNe_maintainability_correctness, strNe_maintainability_efficiency, strNe_maintainability_innovation, strNe_maintainability_usability, strNe_usability_quality, strNe_usability_clarity, strNe_usability_completeness, strNe_usability_correctness, strNe_usability_efficiency, strNe_usability_innovation, strNe_usability_maintainability]
  · obtain ⟨rfl, rfl, _⟩ := hsp
    simp only [Option.map_some', Option.getD_some] at hcrit
    subst hcrit
    norm_num [dimList, eduPin0.1, eduPin0.2.1, eduPin0.2.2.1,
      eduPin0.2.2.2.1, eduPin0.2.2.2.2.1, eduPin0.2.2.2.2.2,
      usedWeight, weightsFor, adjustWeights, LAYER_WEIGHTS, lookupQ,
      Dim.name, defaultDimWeight, educationAdjE, strNe_quality_clarity, strNe_quality_completeness, strNe_quality_correctness, strNe_quality_efficiency, strNe_quality_innovation, strNe_quality_maintainability, strNe_quality_usability, strNe_clarity_quality, strNe_clarity_completeness, strNe_clarity_correctness, strNe_clarity_efficiency, strNe_clarity_innovation, strNe_clarity_maintainability, strNe_clarity_usability, strNe_completeness_quality, strNe_completeness_clarity, strNe_completeness_correctness, strNe_completeness_efficiency, strNe_completeness_innovation, strNe_completeness_maintainability, strNe_completeness_usability, strNe_correctness_quality, strNe_correctness_clarity, strNe_correctness_completeness, strNe_correctness_efficiency, strNe_correctness_innovation, strNe_correctness_maintainability, strNe_correctness_usability, strNe_efficiency_quality, strNe_efficiency_clarity, strNe_efficiency_completeness, strNe_efficiency_correctness, strNe_efficiency_innovation, strNe_efficiency_maintainability, strNe_efficiency_usability, strNe_innovation_quality, strNe_innovation_clarity, strNe_innovation_completeness, strNe_innovation_correctness, strNe_innovation_efficiency, strNe_innovation_maintainability, strNe_innovation_usability, strNe_maintainability_quality, strNe_maintainability_clarity, strNe_maintainability_completeness, strNe_maintainability_correctness, strNe_maintainability_efficiency, strNe_maintainability_innovation, strNe_maintainability_usability, strNe_usability_quality, strNe_usability_clarity, strNe_usability_completeness, strNe_usability_correctness, strNe_usability_efficiency, strNe_usability_innovation, strNe_usability_maintainability]

/-- C5: for every project (any resolved industry), every layer, and every
explicitly supplied nonempty metrics map whose values lie in [0, 1], the
`overall_score` computed by `evaluate_layer_output` lies in [0, 1] — also
when an industry adjustment renormalizes the weights and when the layer-0
weight table lacks entries for some of the six dimensions and the default
dimension weight is substituted. -/
theorem evaluate_overall_score_bounds (project : Option Project) (layer : ℤ)
    (metrics : List (String × ℚ)) (g : ℕ → ℚ) (hne : metrics ≠ [])
    (hm : ∀ pr ∈ metrics, 0 ≤ pr.2 ∧ pr.2 ≤ 1) :
    0 ≤ (evaluate_layer_output BASE_CRITERIA project layer (some metrics)
        g).1.overall_score ∧
      (evaluate_layer_output BASE_CRITERIA project layer (some metrics)
        g).1.overall_score ≤ 1 := by
  have hmem := effKey_mem layer
  rcases adjOptBind_cases (resolveIndustry project) with ha | ha | ha | ha
  · simp only [evaluate_layer_output, ha]
    rw [if_neg hne]
    exact convex_sum_bounds
      (fun d => dimScore metrics (BASE_CRITERIA (effKey layer)) d)
      (fun d => usedWeight (weightsFor (effKey layer) none) d)
      (fun d => decide (finalDimMap (BASE_CRITERIA (effKey layer)) d = []))
      (fun d => dimScore_bounds metrics _ d hm)
      (fun d hp => by
        simp only [dimScore]
        rw [if_pos (of_decide_eq_true hp)])
      (fun d _ => usedWeight_nonneg (effKey layer) none d hmem (Or.inl rfl))
      (pinnedWeightSum_le_one (effKey layer) none hmem (Or.inl rfl) _
        (by simp))
  · simp only [evaluate_layer_output, ha]
    rw [if_neg hne]
    exact convex_sum_bounds
      (fun d => dimScore metrics (BASE_CRITERIA (effKey layer) ++
        healthcareAdjE.additional_criteria) d)
      (fun d => usedWeight (weightsFor (effKey layer)
        (some healthcareAdjE)) d)
      (fun d => decide (finalDimMap (BASE_CRITERIA (effKey layer) ++
        healthcareAdjE.additional_criteria) d = []))
      (fun d => dimScore_bounds metrics _ d hm)
      (fun d hp => by
        simp only [dimScore]
        rw [if_pos (of_decide_eq_true hp)])
      (fun d _ => usedWeight_nonneg (effKey layer) (some healthcareAdjE) d
        hmem (Or.inr (Or.inl rfl)))
      (pinnedWeightSum_le_one (effKey layer) (some healthcareAdjE) hmem
        (Or.inr (Or.inl rfl)) _ (by simp))
  · simp only [evaluate_layer_output, ha]
    rw [if_neg hne]
    exact convex_sum_bounds
      (fun d => dimScore metrics (BASE_CRITERIA (effKey layer) ++
        financeAdjE.additional_criteria) d)
      (fun d => usedWeight (weightsFor (effKey layer) (some financeAdjE)) d)
      (fun d => decide (finalDimMap (BASE_CRITERIA (effKey layer) ++
        financeAdjE.additional_criteria) d = []))
      (fun d => dimScore_bounds metrics _ d hm)
      (fun d hp => by
        simp only [dimScore]
        rw [if_pos (of_decide_eq_true hp)])
      (fun d _ => usedWeight_nonneg (effKey layer) (some financeAdjE) d
        hmem (Or.inr (Or.inr (Or.inl rfl))))
      (pinnedWeightSum_le_one (effKey layer) (some financeAdjE) hmem
        (Or.inr (Or.inr (Or.inl rfl))) _ (by simp))
  · simp only [evaluate_layer_output, ha]
    rw [if_neg hne]
    exact convex_sum_bounds
      (fun d => dimScore metrics (BASE_CRITERIA (effKey layer) ++
        educationAdjE.additional_criteria) d)
      (fun d => usedWeight (weightsFor (effKey layer)
        (some educationAdjE)) d)
      (fun d => decide (finalDimMap (BASE_CRITERIA (effKey layer) ++
        educationAdjE.additional_criteria) d = []))
      (fun d => dimScore_bounds metrics _ d hm)
      (fun d hp => by
        simp only [dimScore]
        rw [if_pos (of_decide_eq_true hp)])
      (fun d _ => usedWeight_nonneg (effKey layer) (some educationAdjE) d
        hmem (Or.inr (Or.inr (Or.inr rfl))))
      (pinnedWeightSum_le_one (effKey layer) (some educationAdjE) hmem
        (Or.inr (Or.inr (Or.inr rfl))) _ (by simp))


/-- Witness for C5 at a concrete layer-1 evaluation with one supplied
metric. -/
theorem evaluate_overall_score_bounds_witness :
    0 ≤ (evaluate_layer_output BASE_CRITERIA none 1
        (some [("requirement_clarity", 1/2)]) (fun _ => 0)).1.overall_score ∧
      (evaluate_layer_output BASE_CRITERIA none 1
        (some [("requirement_clarity", 1/2)]) (fun _ => 0)).1.overall_score ≤
        1 :=
  evaluate_overall_score_bounds none 1 [("requirement_clarity", 1/2)]
    (fun _ => 0) (by simp) (by norm_num [List.forall_mem_cons])

/-- C6 (amended): whenever the evaluated layer key is not 0 with a
registered industry adjustment, the six dimension weights actually combined
into the overall score sum to exactly 1 (hence within 1e-9 of 1);
stage 0 with an adjustment is the exception the counterexample exhibits. -/
theorem eval_weight_sum_one (layer : ℤ) (industry : Option String)
    (h0 : effKey layer = 0 →
      industry.bind EVAL_INDUSTRY_ADJUSTMENTS = none) :
    usedWeightSum (effKey layer)
      (industry.bind EVAL_INDUSTRY_ADJUSTMENTS) = 1 := by
  rcases usedWeightSum_cases (effKey layer)
      (industry.bind EVAL_INDUSTRY_ADJUSTMENTS) (effKey_mem layer)
      (adjOptBind_cases industry) with
    h | ⟨hk, hadj, _⟩ | ⟨hk, hadj, _⟩ | ⟨hk, hadj, _⟩
  · exact h
  all_goals rw [h0 hk] at hadj; cases hadj

/-- Witness for C6: stage 1 with the finance industry — the renormalized
weights sum to exactly 1. -/
theorem eval_weight_sum_one_witness :
    usedWeightSum (effKey 1)
      ((some "finance").bind EVAL_INDUSTRY_ADJUSTMENTS) = 1 :=
  eval_weight_sum_one 1 (some "finance")
    (fun h => absurd h (by decide))

/-- A finance-industry project with well-formed metadata. -/
def financeProject : Project := ⟨some (.ok { industry := some "finance" })⟩

/-- C6 counterexample: evaluating layer 0 for a finance project combines
dimension weights summing to 508/505 — off from 1 by 3/505, far beyond the
1e-9 tolerance — because layer 0's weight table covers only two of the six
dimensions, so renormalization does not control the four substituted
defaults. -/
theorem eval_weight_sum_cex :
    usedWeightSum (effKey 0)
        ((resolveIndustry (some financeProject)).bind
          EVAL_INDUSTRY_ADJUSTMENTS) = 508/505 ∧
      ¬ (|usedWeightSum (effKey 0)
          ((resolveIndustry (some financeProject)).bind
            EVAL_INDUSTRY_ADJUSTMENTS) - 1| ≤ 1/1000000000) := by
  have hres : (resolveIndustry (some financeProject)).bind
      EVAL_INDUSTRY_ADJUSTMENTS = some financeAdjE := rfl
  have hk : effKey 0 = 0 := rfl
  have h : usedWeightSum (effKey 0)
      ((resolveIndustry (some financeProject)).bind
        EVAL_INDUSTRY_ADJUSTMENTS) = 508/505 := by
    rw [hres, hk]
    norm_num [usedWeightSum, weightsFor, adjustWeights, LAYER_WEIGHTS,
      usedWeight, lookupQ, dimList, Dim.name, defaultDimWeight, financeAdjE,
      strNe_quality_clarity, strNe_quality_completeness, strNe_quality_correctness, strNe_quality_efficiency, strNe_quality_innovation, strNe_quality_maintainability, strNe_quality_usability, strNe_clarity_quality, strNe_clarity_completeness, strNe_clarity_correctness, strNe_clarity_efficiency, strNe_clarity_innovation, strNe_clarity_maintainability, strNe_clarity_usability, strNe_completeness_quality, strNe_completeness_clarity, strNe_completeness_correctness, strNe_completeness_efficiency, strNe_completeness_innovation, strNe_completeness_maintainability, strNe_completeness_usability, strNe_correctness_quality, strNe_correctness_clarity, strNe_correctness_completeness, strNe_correctness_efficiency, strNe_correctness_innovation, strNe_correctness_maintainability, strNe_correctness_usability, strNe_efficiency_quality, strNe_efficiency_clarity, strNe_efficiency_completeness, strNe_efficiency_correctness, strNe_efficiency_innovation, strNe_efficiency_maintainability, strNe_efficiency_usability, strNe_innovation_quality, strNe_innovation_clarity, strNe_innovation_completeness, strNe_innovation_correctness, strNe_innovation_efficiency, strNe_innovation_maintainability, strNe_innovation_usability, strNe_maintainability_quality, strNe_maintainability_clarity, strNe_maintainability_completeness, strNe_maintainability_correctness, strNe_maintainability_efficiency, strNe_maintainability_innovation, strNe_maintainability_usability, strNe_usability_quality, strNe_usability_clarity, strNe_usability_completeness, strNe_usability_correctness, strNe_usability_efficiency, strNe_usability_innovation, strNe_usability_maintainability]
  refine ⟨h, ?_⟩
  rw [h, show (508/505 : ℚ) - 1 = 3/505 by norm_num,
    abs_of_pos (by norm_num : (0:ℚ) < 3/505)]
  norm_num

/-- C3 (code evaluated at the failing input): an evaluation of layer 1 for a
finance project extends the shared layer-1 criteria list in place with the
three finance criteria, so the static catalog changes (first and second
conjuncts), and a second evaluation of the same stage reads the extended
list and appends them again, growing it from 5 to 8 to 11 entries (third
conjunct) — two successive evaluations do not use the same criteria list. -/
theorem evaluate_mutates_criteria :
    (evaluate_layer_output BASE_CRITERIA (some financeProject) 1
        (some [("requirement_clarity", 1/2)]) (fun _ => 0)).2 1 =
      BASE_CRITERIA 1 ++ ["transaction_security", "audit_trail_completeness",
        "regulatory_compliance"] ∧
    (evaluate_layer_output BASE_CRITERIA (some financeProject) 1
        (some [("requirement_clarity", 1/2)]) (fun _ => 0)).2 1 ≠
      BASE_CRITERIA 1 ∧
    ((evaluate_layer_output
        (evaluate_layer_output BASE_CRITERIA (some financeProject) 1
          (some [("requirement_clarity", 1/2)]) (fun _ => 0)).2
        (some financeProject) 1 (some [("requirement_clarity", 1/2)])
        (fun _ => 0)).2 1).length = 11 := by
  refine ⟨by decide, by decide, by decide⟩
